import Mathlib

/-!
# MikroTik SPI-NOR RouterBOARD bring-up (`mach-rbspi.c`)

A shallow embedding of `target/linux/ar71xx/files/arch/mips/ath79/mach-rbspi.c`.

* The flash partition table is a list of `mtd_partition` records indexed by
  the `RBSPI_PART_*` enumerators; `rbspi_init_partitions` is a function from
  the descriptor and the old table to the new table.
* The set-up routines are functions on a `Board` state holding the globals the
  file writes, together with the sequence of calls made into the rest of the
  kernel (`Board.trace`).
* Macros and types that come from headers outside the file are collected in
  `Headers`; what the rest of the kernel answers at run time is collected in
  `Env`.
-/

namespace Rbspi

/-! ## Header-provided constants and types -/

/-- Values of the macros and type widths that `mach-rbspi.c` takes from the
kernel headers it includes.  `mtd_bits` is the width of the `offset` and
`size` members of `struct mtd_partition`; the members of `struct rb_info`
are `unsigned int` (32 bits), so the partition members are at least as wide.
Error numbers are positive. -/
structure Headers where
  mtd_bits : Nat
  mtd_bits_ge : 32 ≤ mtd_bits
  MTD_WRITEABLE : Nat
  MTDPART_SIZ_FULL : Nat
  ENODEV : Int
  ENODEV_pos : 0 < ENODEV
  ENOENT : Int
  AR934X_ETH_CFG_SW_ONLY_MODE : Nat
  AR934X_GPIO_OUT_GPIO : Nat
  GPIOF_OUT_INIT_HIGH : Nat
  GPIOF_EXPORT_DIR_FIXED : Nat
  EV_KEY : Nat
  KEY_RESTART : Nat
  LEDS_GPIO_DEFSTATE_ON : Nat

/-- The values of the macros in the Linux headers, with the 64-bit
`mtd_partition` members of `linux/mtd/partitions.h`. -/
def linux_headers : Headers where
  mtd_bits := 64
  mtd_bits_ge := by decide
  MTD_WRITEABLE := 0x400
  MTDPART_SIZ_FULL := 0
  ENODEV := 19
  ENODEV_pos := by decide
  ENOENT := 2
  AR934X_ETH_CFG_SW_ONLY_MODE := 64
  AR934X_GPIO_OUT_GPIO := 0
  GPIOF_OUT_INIT_HIGH := 2
  GPIOF_EXPORT_DIR_FIXED := 32
  EV_KEY := 1
  KEY_RESTART := 0x198
  LEDS_GPIO_DEFSTATE_ON := 1

/-- The same macros with 32-bit partition members, the `u32` of the data
model. -/
def headers32 : Headers := { linux_headers with mtd_bits := 32, mtd_bits_ge := by decide }

/-- Number of values of an `unsigned int`. -/
def U32 : Nat := 2 ^ 32

/-- Number of values of an `offset` or `size` member of `struct mtd_partition`. -/
def Headers.mtd_mod (K : Headers) : Nat := 2 ^ K.mtd_bits

/-- Kernel `BIT(n)`. -/
def BIT (n : Nat) : Nat := 1 <<< n

/-! ## Constants of the file -/

def RBSPI_KEYS_POLL_INTERVAL : Nat := 20
def RBSPI_KEYS_DEBOUNCE_INTERVAL : Nat := 3 * RBSPI_KEYS_POLL_INTERVAL

def RBSPI_HAS_USB : Nat := BIT 0
def RBSPI_HAS_WLAN0 : Nat := BIT 1
def RBSPI_HAS_WLAN1 : Nat := BIT 2
def RBSPI_HAS_WAN4 : Nat := BIT 3
def RBSPI_HAS_SSR : Nat := BIT 4
def RBSPI_HAS_POE : Nat := BIT 5
def RBSPI_HAS_MDIO1 : Nat := BIT 6

def RB_ROUTERBOOT_OFFSET : Nat := 0x0000
def RB_BIOS_SIZE : Nat := 0x1000
def RB_SOFT_CFG_SIZE : Nat := 0x1000

def RBSPI_PART_RBOOT : Nat := 0
def RBSPI_PART_HCONF : Nat := 1
def RBSPI_PART_BIOS : Nat := 2
def RBSPI_PART_RBOOT2 : Nat := 3
def RBSPI_PART_SCONF : Nat := 4
def RBSPI_PART_FIRMW : Nat := 5
def RBSPI_PARTS : Nat := 6

/-! ## Partition table -/

/-- The members of `struct mtd_partition` the file uses.  `name = none` is the
null pointer of a zeroed entry. -/
structure mtd_partition where
  name : Option String
  size : Nat
  offset : Nat
  mask_flags : Nat
deriving DecidableEq, Repr

/-- An all-zero `struct mtd_partition`. -/
def mtd_partition.zero : mtd_partition :=
  { name := none, size := 0, offset := 0, mask_flags := 0 }

/-- The members of `struct rb_info` the file reads: three `unsigned int`
values and the board name (`none` is the null pointer). -/
structure rb_info where
  hard_cfg_offs : Nat
  hard_cfg_size : Nat
  soft_cfg_offs : Nat
  board_name : Option String
deriving DecidableEq, Repr

/-- The three numeric members are values of `unsigned int`. -/
def rb_info.valid (info : rb_info) : Prop :=
  info.hard_cfg_offs < U32 ∧ info.hard_cfg_size < U32 ∧ info.soft_cfg_offs < U32

instance (info : rb_info) : Decidable info.valid :=
  inferInstanceAs (Decidable (info.hard_cfg_offs < U32 ∧ info.hard_cfg_size < U32 ∧
    info.soft_cfg_offs < U32))

/-- The static `rbspi_spi_partitions[RBSPI_PARTS]` before anything wrote to it. -/
def rbspi_spi_partitions_init : List mtd_partition :=
  List.replicate RBSPI_PARTS mtd_partition.zero

/-- Read `parts[i]`. -/
def part (parts : List mtd_partition) (i : Nat) : mtd_partition :=
  parts.getD i mtd_partition.zero

/-- Assignment `parts[i].name = v`. -/
def set_name (parts : List mtd_partition) (i : Nat) (v : String) : List mtd_partition :=
  parts.set i { part parts i with name := some v }

/-- Assignment `parts[i].offset = v`. -/
def set_offset (parts : List mtd_partition) (i : Nat) (v : Nat) : List mtd_partition :=
  parts.set i { part parts i with offset := v }

/-- Assignment `parts[i].size = v`. -/
def set_size (parts : List mtd_partition) (i : Nat) (v : Nat) : List mtd_partition :=
  parts.set i { part parts i with size := v }

/-- Assignment `parts[i].mask_flags = v`. -/
def set_mask_flags (parts : List mtd_partition) (i : Nat) (v : Nat) : List mtd_partition :=
  parts.set i { part parts i with mask_flags := v }

/-- The call `memset(parts, 0x0, sizeof(*parts))`: `*parts` is one array
element, so the first entry is zeroed. -/
def memset_parts (parts : List mtd_partition) : List mtd_partition :=
  parts.set 0 mtd_partition.zero

/-- Sum `a + b` computed in `unsigned int`. -/
def u32_add (a b : Nat) : Nat := (a + b) % U32

/-- Sum `a + b` computed in the partition member type. -/
def mtd_add (K : Headers) (a b : Nat) : Nat := (a + b) % K.mtd_mod

/-- Difference `a - b` computed in the partition member type. -/
def mtd_sub (K : Headers) (a b : Nat) : Nat :=
  (a % K.mtd_mod + (K.mtd_mod - b % K.mtd_mod)) % K.mtd_mod

/-- Function `rbspi_init_partitions`, assignment by assignment.  The sum of
the two descriptor members is an `unsigned int` sum; the other sums and the
difference have an operand of the partition member type and are computed in
that type. -/
def rbspi_init_partitions (K : Headers) (info : rb_info) (parts : List mtd_partition) :
    List mtd_partition :=
  let parts := memset_parts parts
  let parts := set_name parts RBSPI_PART_RBOOT "routerboot"
  let parts := set_offset parts RBSPI_PART_RBOOT RB_ROUTERBOOT_OFFSET
  let parts := set_size parts RBSPI_PART_RBOOT info.hard_cfg_offs
  let parts := set_mask_flags parts RBSPI_PART_RBOOT K.MTD_WRITEABLE
  let parts := set_name parts RBSPI_PART_HCONF "hard_config"
  let parts := set_offset parts RBSPI_PART_HCONF info.hard_cfg_offs
  let parts := set_size parts RBSPI_PART_HCONF info.hard_cfg_size
  let parts := set_mask_flags parts RBSPI_PART_HCONF K.MTD_WRITEABLE
  let parts := set_name parts RBSPI_PART_BIOS "bios"
  let parts := set_offset parts RBSPI_PART_BIOS
    (u32_add info.hard_cfg_offs info.hard_cfg_size)
  let parts := set_size parts RBSPI_PART_BIOS RB_BIOS_SIZE
  let parts := set_mask_flags parts RBSPI_PART_BIOS K.MTD_WRITEABLE
  let parts := set_name parts RBSPI_PART_RBOOT2 "routerboot2"
  let parts := set_offset parts RBSPI_PART_RBOOT2
    (mtd_add K (part parts RBSPI_PART_BIOS).offset RB_BIOS_SIZE)
  let parts := set_size parts RBSPI_PART_RBOOT2
    (mtd_sub K info.soft_cfg_offs (part parts RBSPI_PART_RBOOT2).offset)
  let parts := set_mask_flags parts RBSPI_PART_RBOOT2 K.MTD_WRITEABLE
  let parts := set_name parts RBSPI_PART_SCONF "soft_config"
  let parts := set_offset parts RBSPI_PART_SCONF info.soft_cfg_offs
  let parts := set_size parts RBSPI_PART_SCONF RB_SOFT_CFG_SIZE
  let parts := set_name parts RBSPI_PART_FIRMW "firmware"
  let parts := set_offset parts RBSPI_PART_FIRMW
    (mtd_add K (part parts RBSPI_PART_SCONF).offset (part parts RBSPI_PART_SCONF).size)
  let parts := set_size parts RBSPI_PART_FIRMW K.MTDPART_SIZ_FULL
  parts

/-! ## Static data of the file -/

/-- The members of `struct gpio_led` the file initialises; a member left out
of an initialiser is zero. -/
structure gpio_led where
  name : String
  gpio : Nat
  active_low : Nat
  default_state : Nat := 0
deriving DecidableEq, Repr

/-- The members of `struct gpio_keys_button` the file initialises. -/
structure gpio_keys_button where
  desc : String
  type : Nat
  code : Nat
  debounce_interval : Nat
  gpio : Nat
  active_low : Nat
deriving DecidableEq, Repr

def RBSPI_GPIO_BTN_RESET16 : Nat := 16

def rbspi_gpio_keys_reset16 (K : Headers) : List gpio_keys_button :=
  [ { desc := "Reset button", type := K.EV_KEY, code := K.KEY_RESTART,
      debounce_interval := RBSPI_KEYS_DEBOUNCE_INTERVAL,
      gpio := RBSPI_GPIO_BTN_RESET16, active_low := 1 } ]

def RBMAPL_GPIO_LED_POWER : Nat := 17
def RBMAPL_GPIO_LED_USER : Nat := 14
def RBMAPL_GPIO_LED_ETH : Nat := 4
def RBMAPL_GPIO_LED_WLAN : Nat := 11

def rbmapl_leds (K : Headers) : List gpio_led :=
  [ { name := "rb:green:power", gpio := RBMAPL_GPIO_LED_POWER, active_low := 0,
      default_state := K.LEDS_GPIO_DEFSTATE_ON },
    { name := "rb:green:user", gpio := RBMAPL_GPIO_LED_USER, active_low := 0 },
    { name := "rb:green:eth", gpio := RBMAPL_GPIO_LED_ETH, active_low := 0 },
    { name := "rb:green:wlan", gpio := RBMAPL_GPIO_LED_WLAN, active_low := 0 } ]

def RBHAPL_GPIO_LED_USER : Nat := 14

def rbhapl_leds : List gpio_led :=
  [ { name := "rb:green:user", gpio := RBHAPL_GPIO_LED_USER, active_low := 1 } ]

def RBSPI_SSR_GPIO_BASE : Nat := 40
def RBSPI_SSR_GPIO (bit : Nat) : Nat := RBSPI_SSR_GPIO_BASE + bit

def RB952_SSR_BIT_LED_LAN1 : Nat := 0
def RB952_SSR_BIT_LED_LAN2 : Nat := 1
def RB952_SSR_BIT_LED_LAN3 : Nat := 2
def RB952_SSR_BIT_LED_LAN4 : Nat := 3
def RB952_SSR_BIT_LED_LAN5 : Nat := 4
def RB952_SSR_BIT_USB_POWER : Nat := 5
def RB952_SSR_BIT_LED_WLAN : Nat := 6
def RB952_GPIO_SSR_CS : Nat := 11
def RB952_GPIO_LED_USER : Nat := 4
def RB952_GPIO_POE_POWER : Nat := 14
def RB952_GPIO_POE_STATUS : Nat := 12
def RB952_GPIO_USB_POWER : Nat := RBSPI_SSR_GPIO RB952_SSR_BIT_USB_POWER
def RB952_GPIO_LED_LAN1 : Nat := RBSPI_SSR_GPIO RB952_SSR_BIT_LED_LAN1
def RB952_GPIO_LED_LAN2 : Nat := RBSPI_SSR_GPIO RB952_SSR_BIT_LED_LAN2
def RB952_GPIO_LED_LAN3 : Nat := RBSPI_SSR_GPIO RB952_SSR_BIT_LED_LAN3
def RB952_GPIO_LED_LAN4 : Nat := RBSPI_SSR_GPIO RB952_SSR_BIT_LED_LAN4
def RB952_GPIO_LED_LAN5 : Nat := RBSPI_SSR_GPIO RB952_SSR_BIT_LED_LAN5
def RB952_GPIO_LED_WLAN : Nat := RBSPI_SSR_GPIO RB952_SSR_BIT_LED_WLAN

def rb952_leds : List gpio_led :=
  [ { name := "rb:green:user", gpio := RB952_GPIO_LED_USER, active_low := 0 },
    { name := "rb:blue:wlan", gpio := RB952_GPIO_LED_WLAN, active_low := 1 },
    { name := "rb:green:port1", gpio := RB952_GPIO_LED_LAN1, active_low := 1 },
    { name := "rb:green:port2", gpio := RB952_GPIO_LED_LAN2, active_low := 1 },
    { name := "rb:green:port3", gpio := RB952_GPIO_LED_LAN3, active_low := 1 },
    { name := "rb:green:port4", gpio := RB952_GPIO_LED_LAN4, active_low := 1 },
    { name := "rb:green:port5", gpio := RB952_GPIO_LED_LAN5, active_low := 1 } ]

def RBWAP_GPIO_LED_USER : Nat := 14
def RBWAP_GPIO_LED_WLAN : Nat := 11

def rbwap_leds : List gpio_led :=
  [ { name := "rb:green:user", gpio := RBWAP_GPIO_LED_USER, active_low := 1 },
    { name := "rb:green:wlan", gpio := RBWAP_GPIO_LED_WLAN, active_low := 1 } ]

def RBCAP_GPIO_LED_1 : Nat := 14
def RBCAP_GPIO_LED_2 : Nat := 12
def RBCAP_GPIO_LED_3 : Nat := 11
def RBCAP_GPIO_LED_4 : Nat := 4
def RBCAP_GPIO_LED_ALL : Nat := 13

def rbcap_leds : List gpio_led :=
  [ { name := "rb:green:rssi1", gpio := RBCAP_GPIO_LED_1, active_low := 1 },
    { name := "rb:green:rssi2", gpio := RBCAP_GPIO_LED_2, active_low := 1 },
    { name := "rb:green:rssi3", gpio := RBCAP_GPIO_LED_3, active_low := 1 },
    { name := "rb:green:rssi4", gpio := RBCAP_GPIO_LED_4, active_low := 1 } ]

def RBMAP_SSR_BIT_LED_LAN1 : Nat := 0
def RBMAP_SSR_BIT_LED_LAN2 : Nat := 1
def RBMAP_SSR_BIT_LED_POEO : Nat := 2
def RBMAP_SSR_BIT_LED_USER : Nat := 3
def RBMAP_SSR_BIT_LED_WLAN : Nat := 4
def RBMAP_SSR_BIT_USB_POWER : Nat := 5
def RBMAP_SSR_BIT_LED_APCAP : Nat := 6
def RBMAP_GPIO_SSR_CS : Nat := 11
def RBMAP_GPIO_LED_POWER : Nat := 4
def RBMAP_GPIO_POE_POWER : Nat := 14
def RBMAP_GPIO_POE_STATUS : Nat := 12
def RBMAP_GPIO_USB_POWER : Nat := RBSPI_SSR_GPIO RBMAP_SSR_BIT_USB_POWER
def RBMAP_GPIO_LED_LAN1 : Nat := RBSPI_SSR_GPIO RBMAP_SSR_BIT_LED_LAN1
def RBMAP_GPIO_LED_LAN2 : Nat := RBSPI_SSR_GPIO RBMAP_SSR_BIT_LED_LAN2
def RBMAP_GPIO_LED_POEO : Nat := RBSPI_SSR_GPIO RBMAP_SSR_BIT_LED_POEO
def RBMAP_GPIO_LED_USER : Nat := RBSPI_SSR_GPIO RBMAP_SSR_BIT_LED_USER
def RBMAP_GPIO_LED_WLAN : Nat := RBSPI_SSR_GPIO RBMAP_SSR_BIT_LED_WLAN
def RBMAP_GPIO_LED_APCAP : Nat := RBSPI_SSR_GPIO RBMAP_SSR_BIT_LED_APCAP

def rbmap_leds (K : Headers) : List gpio_led :=
  [ { name := "rb:green:power", gpio := RBMAP_GPIO_LED_POWER, active_low := 1,
      default_state := K.LEDS_GPIO_DEFSTATE_ON },
    { name := "rb:green:eth1", gpio := RBMAP_GPIO_LED_LAN1, active_low := 1 },
    { name := "rb:green:eth2", gpio := RBMAP_GPIO_LED_WLAN, active_low := 1 },
    { name := "rb:red:poe_out", gpio := RBMAP_GPIO_LED_POEO, active_low := 1 },
    { name := "rb:green:user", gpio := RBMAP_GPIO_LED_USER, active_low := 1 },
    { name := "rb:green:wlan", gpio := RBMAP_GPIO_LED_WLAN, active_low := 1 },
    { name := "rb:green:ap_cap", gpio := RBMAP_GPIO_LED_APCAP, active_low := 1 } ]

def RBLHG_GPIO_LED_0 : Nat := 13
def RBLHG_GPIO_LED_1 : Nat := 12
def RBLHG_GPIO_LED_2 : Nat := 4
def RBLHG_GPIO_LED_3 : Nat := 21
def RBLHG_GPIO_LED_4 : Nat := 18
def RBLHG_GPIO_LED_ETH : Nat := 14
def RBLHG_GPIO_LED_POWER : Nat := 11
def RBLHG_GPIO_LED_USER : Nat := 20
def RBLHG_GPIO_BTN_RESET : Nat := 15

def rblhg_leds (K : Headers) : List gpio_led :=
  [ { name := "rb:green:rssi0", gpio := RBLHG_GPIO_LED_0, active_low := 1 },
    { name := "rb:green:rssi1", gpio := RBLHG_GPIO_LED_1, active_low := 1 },
    { name := "rb:green:rssi2", gpio := RBLHG_GPIO_LED_2, active_low := 1 },
    { name := "rb:green:rssi3", gpio := RBLHG_GPIO_LED_3, active_low := 1 },
    { name := "rb:green:rssi4", gpio := RBLHG_GPIO_LED_4, active_low := 1 },
    { name := "rb:green:eth", gpio := RBLHG_GPIO_LED_ETH, active_low := 1 },
    { name := "rb:green:user", gpio := RBLHG_GPIO_LED_USER, active_low := 1 },
    { name := "rb:blue:power", gpio := RBLHG_GPIO_LED_POWER, active_low := 0,
      default_state := K.LEDS_GPIO_DEFSTATE_ON } ]

def rblhg_gpio_keys (K : Headers) : List gpio_keys_button :=
  [ { desc := "Reset button", type := K.EV_KEY, code := K.KEY_RESTART,
      debounce_interval := RBSPI_KEYS_DEBOUNCE_INTERVAL,
      gpio := RBLHG_GPIO_BTN_RESET, active_low := 1 } ]

/-- What the `platform_data` pointer of an SPI device points to:
`rbspi_spi_flash_data` (the partition table and its `nr_parts`) or
`rbspi_ssr_data` (the `base` of the shift register's GPIO range). -/
inductive spi_platform_data where
  | rbspi_spi_flash_data (nr_parts : Nat)
  | rbspi_ssr_data (base : Nat)
deriving DecidableEq, Repr

structure spi_board_info where
  bus_num : Nat
  chip_select : Nat
  max_speed_hz : Nat
  modalias : String
  platform_data : spi_platform_data
deriving DecidableEq, Repr

def rbspi_spi_info : List spi_board_info :=
  [ { bus_num := 0, chip_select := 0, max_speed_hz := 25000000, modalias := "m25p80",
      platform_data := .rbspi_spi_flash_data RBSPI_PARTS },
    { bus_num := 0, chip_select := 1, max_speed_hz := 25000000, modalias := "74x164",
      platform_data := .rbspi_ssr_data RBSPI_SSR_GPIO_BASE } ]

/-- The members of `struct ath79_spi_platform_data` the file writes.
`cs_gpios` holds what the pointed-to array contains when the pointer is
stored; the only reader is the registration call made right after. -/
structure ath79_spi_platform_data where
  bus_num : Nat
  num_chipselect : Nat
  cs_gpios : List Int
deriving DecidableEq, Repr

/-! ## Board state and calls into the rest of the kernel -/

inductive phy_interface_t where
  | PHY_INTERFACE_MODE_NA
  | PHY_INTERFACE_MODE_MII
  | PHY_INTERFACE_MODE_GMII
deriving DecidableEq, Repr

/-- The members of `ath79_eth0_data` and `ath79_eth1_data` the file writes. -/
structure ag71xx_platform_data where
  phy_if_mode : phy_interface_t
  phy_mask : Nat
  mac_addr : List Nat
deriving DecidableEq, Repr

/-- The members of `ath79_switch_data` the file writes. -/
structure ag71xx_switch_platform_data where
  phy4_mii_en : Nat
  phy_poll_mask : Nat
deriving DecidableEq, Repr

/-- A call into the rest of the kernel, with its arguments.  The descriptor
reader, the machine-name accessors and `ath79_init_mac` are not recorded
here: the first is a read answered by `Env`, the second are a variable of
`Board`, the third is a function of `Env`. -/
inductive Event where
  | ath79_register_spi (pdata : ath79_spi_platform_data) (info : List spi_board_info) (n : Nat)
  | ath79_register_usb
  | ath79_register_mdio (id : Nat) (phy_mask : Nat)
  | ath79_setup_ar934x_eth_cfg (mask : Nat)
  | ath79_register_eth (id : Nat)
  | rb_get_ext_wlan_data (id : Nat)
  | ath79_register_wmac (cal_data : Nat) (mac_addr : List Nat)
  | kfree (p : Nat)
  | gpio_request_one (gpio : Nat) (flags : Nat) (label : String)
  | ath79_register_leds_gpio (id : Int) (num : Nat) (leds : List gpio_led)
  | ath79_register_gpio_keys_polled (id : Int) (poll_interval : Nat) (nbuttons : Nat)
      (buttons : List gpio_keys_button)
  | ath79_gpio_output_select (gpio : Nat) (val : Nat)
deriving DecidableEq, Repr

/-- The globals the set-up routines read and write, and the calls made so far. -/
structure Board where
  rbspi_spi_partitions : List mtd_partition
  rbspi_spi_cs_gpios : List Int
  rbspi_ath79_spi_data : ath79_spi_platform_data
  ath79_switch_data : ag71xx_switch_platform_data
  ath79_eth0_data : ag71xx_platform_data
  ath79_eth1_data : ag71xx_platform_data
  mips_machine_name : String
  trace : List Event
deriving DecidableEq, Repr

/-- What the rest of the kernel answers: the result of
`rb_init_info((void *)(KSEG1ADDR(AR71XX_SPI_BASE)), 0x20000)` (`none` is the
null pointer), the buffer address `rb_get_ext_wlan_data(id)` returns (`none`
is the null pointer), `ath79_mac_base`, and the address `ath79_init_mac`
stores for a base address and an offset. -/
structure Env where
  rb_init_info : Option rb_info
  rb_get_ext_wlan_data : Nat → Option Nat
  ath79_mac_base : List Nat
  ath79_init_mac : List Nat → Int → List Nat

/-- The globals at their static initialisers, nothing called yet. -/
def Board.boot (K : Headers) : Board where
  rbspi_spi_partitions := rbspi_spi_partitions_init
  rbspi_spi_cs_gpios := [-K.ENOENT, -K.ENOENT]
  rbspi_ath79_spi_data := { bus_num := 0, num_chipselect := 0,
                            cs_gpios := [-K.ENOENT, -K.ENOENT] }
  ath79_switch_data := { phy4_mii_en := 0, phy_poll_mask := 0 }
  ath79_eth0_data := { phy_if_mode := .PHY_INTERFACE_MODE_NA, phy_mask := 0, mac_addr := [] }
  ath79_eth1_data := { phy_if_mode := .PHY_INTERFACE_MODE_NA, phy_mask := 0, mac_addr := [] }
  mips_machine_name := "Unknown"
  trace := []

/-- Record a call. -/
def emit (e : Event) (s : Board) : Board :=
  { s with trace := s.trace ++ [e] }

/-- The calls made between state `s` and the later state `s'`. -/
def new_events (s s' : Board) : List Event :=
  s'.trace.drop s.trace.length

/-- Test `flags & bit` of a C condition. -/
def has_flag (flags bit : Nat) : Bool :=
  flags &&& bit != 0

/-- The call `scnprintf(buf, size, "MikroTik %s", name)`: at most `size - 1`
characters are stored. -/
def scnprintf_MikroTik (size : Nat) (name : String) : String :=
  String.mk (("MikroTik " ++ name).data.take (size - 1))

/-- The call `strstr(hay, needle)` as a truth value. -/
def strstr (hay needle : String) : Bool :=
  hay.data.tails.any (fun t => needle.data.isPrefixOf t)

/-- Function `rbspi_wlan_init`. -/
def rbspi_wlan_init (E : Env) (id : Nat) (wmac_offset : Int) (s : Board) : Board :=
  let s := emit (.rb_get_ext_wlan_data id) s
  match E.rb_get_ext_wlan_data id with
  | none => s
  | some art_buf =>
    let wlan_mac := E.ath79_init_mac E.ath79_mac_base wmac_offset
    let s := emit (.ath79_register_wmac (art_buf + 0x1000) wlan_mac) s
    emit (.kfree art_buf) s

/-- Function `rbspi_platform_setup`: the returned `int` and the new state. -/
def rbspi_platform_setup (K : Headers) (E : Env) (s : Board) : Int × Board :=
  match E.rb_init_info with
  | none => (-K.ENODEV, s)
  | some info =>
    let buf := scnprintf_MikroTik 64
      (match info.board_name with
       | some board_name => board_name
       | none => "")
    let s := { s with mips_machine_name := buf }
    let s := { s with rbspi_spi_partitions :=
                 rbspi_init_partitions K info s.rbspi_spi_partitions }
    (0, s)

/-- Function `rbspi_peripherals_setup`. -/
def rbspi_peripherals_setup (flags : Nat) (s : Board) : Board :=
  let spi_n := if has_flag flags RBSPI_HAS_SSR then rbspi_spi_info.length else 1
  let s := { s with rbspi_ath79_spi_data :=
               { s.rbspi_ath79_spi_data with num_chipselect := spi_n } }
  let s := { s with rbspi_ath79_spi_data :=
               { s.rbspi_ath79_spi_data with cs_gpios := s.rbspi_spi_cs_gpios } }
  let s := emit (.ath79_register_spi s.rbspi_ath79_spi_data rbspi_spi_info spi_n) s
  if has_flag flags RBSPI_HAS_USB then emit .ath79_register_usb s else s

/-- Function `rbspi_network_setup`. -/
def rbspi_network_setup (K : Headers) (E : Env) (flags : Nat)
    (gmac1_offset wmac0_offset wmac1_offset : Int) (s : Board) : Board :=
  let s := emit (.ath79_register_mdio 0 0x0) s
  let s := if has_flag flags RBSPI_HAS_MDIO1 then emit (.ath79_register_mdio 1 0x0) s else s
  let s :=
    if has_flag flags RBSPI_HAS_WAN4 then
      let s := emit (.ath79_setup_ar934x_eth_cfg 0) s
      let s := { s with ath79_switch_data := { s.ath79_switch_data with phy4_mii_en := 1 } }
      let s := { s with ath79_switch_data :=
                   { s.ath79_switch_data with
                     phy_poll_mask := s.ath79_switch_data.phy_poll_mask ||| BIT 4 } }
      let s := { s with ath79_eth0_data :=
                   { s.ath79_eth0_data with phy_if_mode := .PHY_INTERFACE_MODE_MII } }
      let s := { s with ath79_eth0_data := { s.ath79_eth0_data with phy_mask := BIT 4 } }
      let s := { s with ath79_eth0_data :=
                   { s.ath79_eth0_data with
                     mac_addr := E.ath79_init_mac E.ath79_mac_base 0 } }
      emit (.ath79_register_eth 0) s
    else
      emit (.ath79_setup_ar934x_eth_cfg K.AR934X_ETH_CFG_SW_ONLY_MODE) s
  let s := { s with ath79_eth1_data :=
               { s.ath79_eth1_data with
                 mac_addr := E.ath79_init_mac E.ath79_mac_base gmac1_offset } }
  let s := { s with ath79_eth1_data :=
               { s.ath79_eth1_data with phy_if_mode := .PHY_INTERFACE_MODE_GMII } }
  let s := emit (.ath79_register_eth 1) s
  let s := if has_flag flags RBSPI_HAS_WLAN0 then rbspi_wlan_init E 0 wmac0_offset s else s
  let s := if has_flag flags RBSPI_HAS_WLAN1 then rbspi_wlan_init E 1 wmac1_offset s else s
  s

/-- Function `rbmapl_setup`. -/
def rbmapl_setup (K : Headers) (E : Env) (s : Board) : Board :=
  let flags := RBSPI_HAS_WLAN0
  let (ret, s) := rbspi_platform_setup K E s
  if ret ≠ 0 then s else
  let s := rbspi_peripherals_setup flags s
  let s := rbspi_network_setup K E flags 0 1 0 s
  let s := emit (.ath79_register_leds_gpio (-1) (rbmapl_leds K).length (rbmapl_leds K)) s
  let s := emit (.ath79_register_gpio_keys_polled (-1) RBSPI_KEYS_POLL_INTERVAL
                   (rbspi_gpio_keys_reset16 K).length (rbspi_gpio_keys_reset16 K)) s
  let s := emit (.ath79_gpio_output_select RBMAPL_GPIO_LED_ETH K.AR934X_GPIO_OUT_GPIO) s
  let s := emit (.ath79_gpio_output_select RBMAPL_GPIO_LED_POWER K.AR934X_GPIO_OUT_GPIO) s
  s

/-- Function `rbhapl_setup`. -/
def rbhapl_setup (K : Headers) (E : Env) (s : Board) : Board :=
  let flags := RBSPI_HAS_WLAN0
  let (ret, s) := rbspi_platform_setup K E s
  if ret ≠ 0 then s else
  let s := rbspi_peripherals_setup flags s
  let s := rbspi_network_setup K E flags 0 4 0 s
  let s := emit (.ath79_register_leds_gpio (-1) rbhapl_leds.length rbhapl_leds) s
  let s := emit (.ath79_register_gpio_keys_polled (-1) RBSPI_KEYS_POLL_INTERVAL
                   (rbspi_gpio_keys_reset16 K).length (rbspi_gpio_keys_reset16 K)) s
  s

/-- Function `rbspi_952_750r2_setup`. -/
def rbspi_952_750r2_setup (K : Headers) (E : Env) (flags : Nat) (s : Board) : Board :=
  let s := if has_flag flags RBSPI_HAS_SSR then
      { s with rbspi_spi_cs_gpios := s.rbspi_spi_cs_gpios.set 1 (RB952_GPIO_SSR_CS : Int) }
    else s
  let s := rbspi_peripherals_setup flags s
  let s := rbspi_network_setup K E flags 1 5 0 s
  let s := if has_flag flags RBSPI_HAS_USB then
      emit (.gpio_request_one RB952_GPIO_USB_POWER
              (K.GPIOF_OUT_INIT_HIGH ||| K.GPIOF_EXPORT_DIR_FIXED) "USB power") s
    else s
  let s := if has_flag flags RBSPI_HAS_POE then
      emit (.gpio_request_one RB952_GPIO_POE_POWER
              (K.GPIOF_OUT_INIT_HIGH ||| K.GPIOF_EXPORT_DIR_FIXED) "POE power") s
    else s
  let s := emit (.ath79_register_leds_gpio (-1) rb952_leds.length rb952_leds) s
  let s := emit (.ath79_register_gpio_keys_polled (-1) RBSPI_KEYS_POLL_INTERVAL
                   (rbspi_gpio_keys_reset16 K).length (rbspi_gpio_keys_reset16 K)) s
  s

/-- Function `rb952_setup`. -/
def rb952_setup (K : Headers) (E : Env) (s : Board) : Board :=
  let flags := RBSPI_HAS_WLAN0 ||| RBSPI_HAS_WAN4 ||| RBSPI_HAS_USB |||
    RBSPI_HAS_SSR ||| RBSPI_HAS_POE
  let (ret, s) := rbspi_platform_setup K E s
  if ret ≠ 0 then s else
  rbspi_952_750r2_setup K E flags s

/-- The flag set `rb750upr2_setup` passes on, for a given machine name. -/
def rb750upr2_flags (machine_name : String) : Nat :=
  let flags := RBSPI_HAS_WAN4 ||| RBSPI_HAS_SSR
  if strstr machine_name "750UP r2" then flags ||| (RBSPI_HAS_USB ||| RBSPI_HAS_POE)
  else flags

/-- Function `rb750upr2_setup`; `mips_get_machine_name()` reads the name
`mips_set_machine_name` stored. -/
def rb750upr2_setup (K : Headers) (E : Env) (s : Board) : Board :=
  let (ret, s) := rbspi_platform_setup K E s
  if ret ≠ 0 then s else
  let flags := rb750upr2_flags s.mips_machine_name
  rbspi_952_750r2_setup K E flags s

/-- Function `rblhg_setup`. -/
def rblhg_setup (K : Headers) (E : Env) (s : Board) : Board :=
  let flags := RBSPI_HAS_WLAN1 ||| RBSPI_HAS_MDIO1
  let (ret, s) := rbspi_platform_setup K E s
  if ret ≠ 0 then s else
  let s := rbspi_peripherals_setup flags s
  let s := rbspi_network_setup K E flags 0 0 1 s
  let s := emit (.ath79_register_leds_gpio (-1) (rblhg_leds K).length (rblhg_leds K)) s
  let s := emit (.ath79_register_gpio_keys_polled (-1) RBSPI_KEYS_POLL_INTERVAL
                   (rblhg_gpio_keys K).length (rblhg_gpio_keys K)) s
  s

/-- Function `rbwap_setup`. -/
def rbwap_setup (K : Headers) (E : Env) (s : Board) : Board :=
  let flags := RBSPI_HAS_WLAN0
  let (ret, s) := rbspi_platform_setup K E s
  if ret ≠ 0 then s else
  let s := rbspi_peripherals_setup flags s
  let s := rbspi_network_setup K E flags 0 1 0 s
  let s := emit (.ath79_register_leds_gpio (-1) rbwap_leds.length rbwap_leds) s
  s

/-- Function `rbcap_setup`. -/
def rbcap_setup (K : Headers) (E : Env) (s : Board) : Board :=
  let flags := RBSPI_HAS_WLAN0
  let (ret, s) := rbspi_platform_setup K E s
  if ret ≠ 0 then s else
  let s := rbspi_peripherals_setup flags s
  let s := rbspi_network_setup K E flags 0 1 0 s
  let s := emit (.gpio_request_one RBCAP_GPIO_LED_ALL
                   (K.GPIOF_OUT_INIT_HIGH ||| K.GPIOF_EXPORT_DIR_FIXED) "LEDs enable") s
  let s := emit (.ath79_register_leds_gpio (-1) rbcap_leds.length rbcap_leds) s
  s

/-- Function `rbmap_setup`. -/
def rbmap_setup (K : Headers) (E : Env) (s : Board) : Board :=
  let flags := RBSPI_HAS_WLAN0 ||| RBSPI_HAS_SSR ||| RBSPI_HAS_POE
  let (ret, s) := rbspi_platform_setup K E s
  if ret ≠ 0 then s else
  let s := { s with rbspi_spi_cs_gpios := s.rbspi_spi_cs_gpios.set 1 (RBMAP_GPIO_SSR_CS : Int) }
  let s := rbspi_peripherals_setup flags s
  let s := rbspi_network_setup K E flags 0 2 0 s
  let s := if has_flag flags RBSPI_HAS_POE then
      emit (.gpio_request_one RBMAP_GPIO_POE_POWER
              (K.GPIOF_OUT_INIT_HIGH ||| K.GPIOF_EXPORT_DIR_FIXED) "POE power") s
    else s
  let s := emit (.ath79_register_leds_gpio (-1) (rbmap_leds K).length (rbmap_leds K)) s
  s

/-- The eight routines the `MIPS_MACHINE_NONAME` lines register. -/
def variant_setups : List (Headers → Env → Board → Board) :=
  [rbmapl_setup, rbhapl_setup, rb952_setup, rb750upr2_setup,
   rblhg_setup, rbwap_setup, rbcap_setup, rbmap_setup]

/-- An environment in which the descriptor of the worked example is found
and both radios have calibration data. -/
def demoEnv : Env where
  rb_init_info := some ⟨0x1000, 0x1000, 0x5000, some "RB750UP r2"⟩
  rb_get_ext_wlan_data := fun id => some (0x80000000 + id * 0x10000)
  ath79_mac_base := [0, 1, 2, 3, 4, 5]
  ath79_init_mac := fun b off => b ++ [off.toNat]

/-- The descriptor of the worked example. -/
def demoInfo : rb_info := ⟨0x1000, 0x1000, 0x5000, none⟩

/-- A descriptor whose `soft_cfg_offs` (`0x2000`) is below the end of bios
(`0x3000`). -/
def shortInfo : rb_info := ⟨0x1000, 0x1000, 0x2000, some "RB941-2nD"⟩

/-- An environment in which the descriptor reader returns `shortInfo`. -/
def shortEnv : Env := { demoEnv with rb_init_info := some shortInfo }

/-- An environment in which the descriptor reader finds nothing. -/
def noInfoEnv : Env := { demoEnv with rb_init_info := none }

/-! ## Call sequences -/

/-- The calls one `rbspi_wlan_init (id, wmac_offset)` makes. -/
def wlan_calls (E : Env) (id : Nat) (wmac_offset : Int) : List Event :=
  Event.rb_get_ext_wlan_data id ::
    (match E.rb_get_ext_wlan_data id with
     | none => []
     | some art_buf =>
       [Event.ath79_register_wmac (art_buf + 0x1000)
          (E.ath79_init_mac E.ath79_mac_base wmac_offset),
        Event.kfree art_buf])

/-- The calls `rbspi_network_setup` makes before it turns to the radios. -/
def ethernet_calls (K : Headers) (flags : Nat) : List Event :=
  [Event.ath79_register_mdio 0 0x0] ++
  (if has_flag flags RBSPI_HAS_MDIO1 then [Event.ath79_register_mdio 1 0x0] else []) ++
  (if has_flag flags RBSPI_HAS_WAN4 then
     [Event.ath79_setup_ar934x_eth_cfg 0, Event.ath79_register_eth 0]
   else [Event.ath79_setup_ar934x_eth_cfg K.AR934X_ETH_CFG_SW_ONLY_MODE]) ++
  [Event.ath79_register_eth 1]

/-- The calls `rbspi_network_setup` makes. -/
def network_calls (K : Headers) (E : Env) (flags : Nat)
    (wmac0_offset wmac1_offset : Int) : List Event :=
  ethernet_calls K flags ++
  ((if has_flag flags RBSPI_HAS_WLAN0 then wlan_calls E 0 wmac0_offset else []) ++
   (if has_flag flags RBSPI_HAS_WLAN1 then wlan_calls E 1 wmac1_offset else []))

/-- The calls `rbspi_peripherals_setup` makes from state `s`. -/
def peripherals_calls (flags : Nat) (s : Board) : List Event :=
  [Event.ath79_register_spi
     { bus_num := s.rbspi_ath79_spi_data.bus_num,
       num_chipselect := if has_flag flags RBSPI_HAS_SSR then 2 else 1,
       cs_gpios := s.rbspi_spi_cs_gpios }
     rbspi_spi_info (if has_flag flags RBSPI_HAS_SSR then 2 else 1)] ++
  (if has_flag flags RBSPI_HAS_USB then [Event.ath79_register_usb] else [])

/-- The calls `rbspi_952_750r2_setup` makes from state `s`. -/
def rbspi_952_750r2_calls (K : Headers) (E : Env) (flags : Nat) (s : Board) : List Event :=
  peripherals_calls flags
    (if has_flag flags RBSPI_HAS_SSR then
       { s with rbspi_spi_cs_gpios := s.rbspi_spi_cs_gpios.set 1 (RB952_GPIO_SSR_CS : Int) }
     else s) ++
  network_calls K E flags 5 0 ++
  (if has_flag flags RBSPI_HAS_USB then
     [Event.gpio_request_one RB952_GPIO_USB_POWER
        (K.GPIOF_OUT_INIT_HIGH ||| K.GPIOF_EXPORT_DIR_FIXED) "USB power"]
   else []) ++
  (if has_flag flags RBSPI_HAS_POE then
     [Event.gpio_request_one RB952_GPIO_POE_POWER
        (K.GPIOF_OUT_INIT_HIGH ||| K.GPIOF_EXPORT_DIR_FIXED) "POE power"]
   else []) ++
  [Event.ath79_register_leds_gpio (-1) rb952_leds.length rb952_leds,
   Event.ath79_register_gpio_keys_polled (-1) RBSPI_KEYS_POLL_INTERVAL
     (rbspi_gpio_keys_reset16 K).length (rbspi_gpio_keys_reset16 K)]

/-- The state `rbspi_platform_setup` leaves when the reader returned `info`. -/
def platform_state (K : Headers) (info : rb_info) (s : Board) : Board :=
  { s with
    mips_machine_name := scnprintf_MikroTik 64 (info.board_name.getD ""),
    rbspi_spi_partitions := rbspi_init_partitions K info s.rbspi_spi_partitions }

/-- The calls of a board routine after `rbspi_platform_setup`: those of
`rbspi_peripherals_setup` from state `st`, those of `rbspi_network_setup`,
then the calls `post` the routine makes itself. -/
def board_calls (K : Headers) (E : Env) (flags : Nat) (wmac0_offset wmac1_offset : Int)
    (st : Board) (post : List Event) : List Event :=
  peripherals_calls flags st ++ (network_calls K E flags wmac0_offset wmac1_offset ++ post)

/-- The calls `rbspi_952_750r2_setup` makes after `rbspi_network_setup`. -/
def rbspi_952_750r2_post (K : Headers) (flags : Nat) : List Event :=
  (if has_flag flags RBSPI_HAS_USB then
     [Event.gpio_request_one RB952_GPIO_USB_POWER
        (K.GPIOF_OUT_INIT_HIGH ||| K.GPIOF_EXPORT_DIR_FIXED) "USB power"]
   else []) ++
  ((if has_flag flags RBSPI_HAS_POE then
     [Event.gpio_request_one RB952_GPIO_POE_POWER
        (K.GPIOF_OUT_INIT_HIGH ||| K.GPIOF_EXPORT_DIR_FIXED) "POE power"]
   else []) ++
  [Event.ath79_register_leds_gpio (-1) rb952_leds.length rb952_leds,
   Event.ath79_register_gpio_keys_polled (-1) RBSPI_KEYS_POLL_INTERVAL
     (rbspi_gpio_keys_reset16 K).length (rbspi_gpio_keys_reset16 K)])

/-- The assignment `rbspi_spi_cs_gpios[1] = gpio`. -/
def set_cs1 (gpio : Nat) (s : Board) : Board :=
  { s with rbspi_spi_cs_gpios := s.rbspi_spi_cs_gpios.set 1 (gpio : Int) }

/-- One board routine in summary: the routine, the value of its `flags`, the
radio offsets it passes to `rbspi_network_setup`, what it does to the state
before `rbspi_peripherals_setup`, and the calls it makes after
`rbspi_network_setup`. -/
structure Variant where
  setup : Headers → Env → Board → Board
  flags : Nat
  wmac0_offset : Int
  wmac1_offset : Int
  prep : Board → Board
  post : List Event

/-- The eight board routines in summary, in the order of `variant_setups`;
`machine_name` is the name `rbspi_platform_setup` has stored. -/
def variant_table (K : Headers) (machine_name : String) : List Variant :=
  [ { setup := rbmapl_setup, flags := RBSPI_HAS_WLAN0, wmac0_offset := 1, wmac1_offset := 0,
      prep := id,
      post :=
        [Event.ath79_register_leds_gpio (-1) (rbmapl_leds K).length (rbmapl_leds K),
         Event.ath79_register_gpio_keys_polled (-1) RBSPI_KEYS_POLL_INTERVAL
           (rbspi_gpio_keys_reset16 K).length (rbspi_gpio_keys_reset16 K),
         Event.ath79_gpio_output_select RBMAPL_GPIO_LED_ETH K.AR934X_GPIO_OUT_GPIO,
         Event.ath79_gpio_output_select RBMAPL_GPIO_LED_POWER K.AR934X_GPIO_OUT_GPIO] },
    { setup := rbhapl_setup, flags := RBSPI_HAS_WLAN0, wmac0_offset := 4, wmac1_offset := 0,
      prep := id,
      post :=
        [Event.ath79_register_leds_gpio (-1) rbhapl_leds.length rbhapl_leds,
         Event.ath79_register_gpio_keys_polled (-1) RBSPI_KEYS_POLL_INTERVAL
           (rbspi_gpio_keys_reset16 K).length (rbspi_gpio_keys_reset16 K)] },
    { setup := rb952_setup,
      flags := RBSPI_HAS_WLAN0 ||| RBSPI_HAS_WAN4 ||| RBSPI_HAS_USB |||
        RBSPI_HAS_SSR ||| RBSPI_HAS_POE,
      wmac0_offset := 5, wmac1_offset := 0,
      prep := set_cs1 RB952_GPIO_SSR_CS,
      post := rbspi_952_750r2_post K (RBSPI_HAS_WLAN0 ||| RBSPI_HAS_WAN4 ||| RBSPI_HAS_USB |||
        RBSPI_HAS_SSR ||| RBSPI_HAS_POE) },
    { setup := rb750upr2_setup, flags := rb750upr2_flags machine_name,
      wmac0_offset := 5, wmac1_offset := 0,
      prep := set_cs1 RB952_GPIO_SSR_CS,
      post := rbspi_952_750r2_post K (rb750upr2_flags machine_name) },
    { setup := rblhg_setup, flags := RBSPI_HAS_WLAN1 ||| RBSPI_HAS_MDIO1,
      wmac0_offset := 0, wmac1_offset := 1,
      prep := id,
      post :=
        [Event.ath79_register_leds_gpio (-1) (rblhg_leds K).length (rblhg_leds K),
         Event.ath79_register_gpio_keys_polled (-1) RBSPI_KEYS_POLL_INTERVAL
           (rblhg_gpio_keys K).length (rblhg_gpio_keys K)] },
    { setup := rbwap_setup, flags := RBSPI_HAS_WLAN0, wmac0_offset := 1, wmac1_offset := 0,
      prep := id,
      post := [Event.ath79_register_leds_gpio (-1) rbwap_leds.length rbwap_leds] },
    { setup := rbcap_setup, flags := RBSPI_HAS_WLAN0, wmac0_offset := 1, wmac1_offset := 0,
      prep := id,
      post :=
        [Event.gpio_request_one RBCAP_GPIO_LED_ALL
           (K.GPIOF_OUT_INIT_HIGH ||| K.GPIOF_EXPORT_DIR_FIXED) "LEDs enable",
         Event.ath79_register_leds_gpio (-1) rbcap_leds.length rbcap_leds] },
    { setup := rbmap_setup, flags := RBSPI_HAS_WLAN0 ||| RBSPI_HAS_SSR ||| RBSPI_HAS_POE,
      wmac0_offset := 2, wmac1_offset := 0,
      prep := set_cs1 RBMAP_GPIO_SSR_CS,
      post :=
        [Event.gpio_request_one RBMAP_GPIO_POE_POWER
           (K.GPIOF_OUT_INIT_HIGH ||| K.GPIOF_EXPORT_DIR_FIXED) "POE power",
         Event.ath79_register_leds_gpio (-1) (rbmap_leds K).length (rbmap_leds K)] } ]

/-! ## Properties of call sequences -/

/-- The radio index of a calibration-data lookup. -/
def lookup_id : Event → Option Nat
  | .rb_get_ext_wlan_data id => some id
  | _ => none

/-- The calibration pointer and the address of a radio registration. -/
def wmac_args : Event → Option (Nat × List Nat)
  | .ath79_register_wmac cal_data mac_addr => some (cal_data, mac_addr)
  | _ => none

/-- The environment `E` with the calibration data of radio `id` missing. -/
def without_data (E : Env) (id : Nat) : Env :=
  { E with rb_get_ext_wlan_data := fun i => if i = id then none else E.rb_get_ext_wlan_data i }

/-- The state without the call sequence: the globals alone. -/
def untraced (s : Board) : Board :=
  { s with trace := [] }

/-- Call sequence `t'` is `t` with the registration of radio `id` left out:
the two agree before and after, `t` has the lookup for `id`, a radio
registration and the release of the buffer, `t'` has the lookup alone. -/
def radio_skipped (id : Nat) (t t' : List Event) : Prop :=
  ∃ pre post cal_data mac_addr art_buf,
    t = pre ++ [Event.rb_get_ext_wlan_data id, Event.ath79_register_wmac cal_data mac_addr,
                Event.kfree art_buf] ++ post ∧
    t' = pre ++ [Event.rb_get_ext_wlan_data id] ++ post

/-- Call sequence `t'` is `t`, or `t` with the registration of radio `id`
left out. -/
def same_but_radio (id : Nat) (t t' : List Event) : Prop :=
  t' = t ∨ radio_skipped id t t'

/-- The stage of the bring-up a call belongs to: 1 bus set-up, 2 USB host,
3 network set-up (MDIO, switch, Ethernet), 4 radio set-up, 5 auxiliary power
and enable pins, 6 LED table, 7 button table, 8 pin multiplexing. -/
def stage : Event → Nat
  | .ath79_register_spi _ _ _ => 1
  | .ath79_register_usb => 2
  | .ath79_register_mdio _ _ => 3
  | .ath79_setup_ar934x_eth_cfg _ => 3
  | .ath79_register_eth _ => 3
  | .rb_get_ext_wlan_data _ => 4
  | .ath79_register_wmac _ _ => 4
  | .kfree _ => 4
  | .gpio_request_one _ _ _ => 5
  | .ath79_register_leds_gpio _ _ _ => 6
  | .ath79_register_gpio_keys_polled _ _ _ _ => 7
  | .ath79_gpio_output_select _ _ => 8

/-- Of an SPI registration: `num_chipselect` and the number of devices. -/
def spi_args : Event → Option (Nat × Nat)
  | .ath79_register_spi pdata _ n => some (pdata.num_chipselect, n)
  | _ => none

/-- The label of a GPIO request. -/
def gpio_label : Event → Option String
  | .gpio_request_one _ _ label => some label
  | _ => none

/-- The number of SPI devices a flag set asks for. -/
def spi_devices (flags : Nat) : Nat :=
  if has_flag flags RBSPI_HAS_SSR then 2 else 1

/-- A call sequence follows the fixed order for a flag set: stages never
go back; there is one SPI registration, with two devices when `RBSPI_HAS_SSR`
is set and one otherwise; the USB host is registered exactly when
`RBSPI_HAS_USB` is set; MDIO bus 0 and eth 1 are registered, MDIO bus 1
exactly when `RBSPI_HAS_MDIO1` is set and eth 0 exactly when `RBSPI_HAS_WAN4`
is set; the calibration lookups are those of the radio flags that are set;
"USB power" is requested exactly when `RBSPI_HAS_USB` is set and "POE power"
exactly when `RBSPI_HAS_POE` is set; one LED table is registered. -/
def staged (flags : Nat) (evs : List Event) : Prop :=
  List.Pairwise (fun a b : Nat => a ≤ b) (evs.map stage) ∧
  evs.filterMap spi_args = [(spi_devices flags, spi_devices flags)] ∧
  (Event.ath79_register_usb ∈ evs ↔ has_flag flags RBSPI_HAS_USB = true) ∧
  Event.ath79_register_mdio 0 0 ∈ evs ∧
  (Event.ath79_register_mdio 1 0 ∈ evs ↔ has_flag flags RBSPI_HAS_MDIO1 = true) ∧
  (Event.ath79_register_eth 0 ∈ evs ↔ has_flag flags RBSPI_HAS_WAN4 = true) ∧
  Event.ath79_register_eth 1 ∈ evs ∧
  evs.filterMap lookup_id
    = (if has_flag flags RBSPI_HAS_WLAN0 then [0] else []) ++
      (if has_flag flags RBSPI_HAS_WLAN1 then [1] else []) ∧
  ("USB power" ∈ evs.filterMap gpio_label ↔ has_flag flags RBSPI_HAS_USB = true) ∧
  ("POE power" ∈ evs.filterMap gpio_label ↔ has_flag flags RBSPI_HAS_POE = true) ∧
  (evs.filter (fun e => stage e == 6)).length = 1

/-- What `staged` asks of the calls a routine makes after
`rbspi_network_setup`. -/
def post_ok (flags : Nat) (post : List Event) : Prop :=
  List.Pairwise (fun a b : Nat => a ≤ b) (post.map stage) ∧
  (∀ e ∈ post, 5 ≤ stage e) ∧
  ("USB power" ∈ post.filterMap gpio_label ↔ has_flag flags RBSPI_HAS_USB = true) ∧
  ("POE power" ∈ post.filterMap gpio_label ↔ has_flag flags RBSPI_HAS_POE = true) ∧
  (post.filter (fun e => stage e == 6)).length = 1

/-! ## Properties of tables -/

/-- Offsets never decrease from an entry to any later entry. -/
def offsets_nondecreasing (t : List mtd_partition) : Prop :=
  List.Pairwise (fun a b => a.offset ≤ b.offset) t

/-- Each entry ends at or before the offset of the entry after it. -/
def adjacent_disjoint (t : List mtd_partition) : Prop :=
  List.Chain' (fun a b => a.offset + a.size ≤ b.offset) t

/-- Each entry ends at or before the offset of every later entry. -/
def no_overlap (t : List mtd_partition) : Prop :=
  List.Pairwise (fun a b => a.offset + a.size ≤ b.offset) t

/-- Each entry ends exactly where the entry after it starts. -/
def contiguous (t : List mtd_partition) : Prop :=
  List.Chain' (fun a b => a.offset + a.size = b.offset) t

/-- The entry at index `i` has the open-ended size exactly when it is the last one. -/
def only_last_full (K : Headers) (t : List mtd_partition) : Prop :=
  ∀ i, i < t.length → ((part t i).size = K.MTDPART_SIZ_FULL ↔ i + 1 = t.length)

/-- All bits of `MTD_WRITEABLE` are set in the entry's `mask_flags`. -/
def masks_writeable (K : Headers) (p : mtd_partition) : Prop :=
  p.mask_flags &&& K.MTD_WRITEABLE = K.MTD_WRITEABLE

/-- No bit of `MTD_WRITEABLE` is set in the entry's `mask_flags`. -/
def keeps_writeable (K : Headers) (p : mtd_partition) : Prop :=
  p.mask_flags &&& K.MTD_WRITEABLE = 0

instance (t : List mtd_partition) : Decidable (offsets_nondecreasing t) :=
  inferInstanceAs (Decidable (List.Pairwise (fun a b : mtd_partition => a.offset ≤ b.offset) t))

instance (t : List mtd_partition) : Decidable (adjacent_disjoint t) :=
  inferInstanceAs
    (Decidable (List.Chain' (fun a b : mtd_partition => a.offset + a.size ≤ b.offset) t))

instance (t : List mtd_partition) : Decidable (no_overlap t) :=
  inferInstanceAs
    (Decidable (List.Pairwise (fun a b : mtd_partition => a.offset + a.size ≤ b.offset) t))

instance (t : List mtd_partition) : Decidable (contiguous t) :=
  inferInstanceAs
    (Decidable (List.Chain' (fun a b : mtd_partition => a.offset + a.size = b.offset) t))

instance (K : Headers) (t : List mtd_partition) : Decidable (only_last_full K t) :=
  inferInstanceAs (Decidable (∀ i, i < t.length →
    ((part t i).size = K.MTDPART_SIZ_FULL ↔ i + 1 = t.length)))

instance (K : Headers) (p : mtd_partition) : Decidable (masks_writeable K p) :=
  inferInstanceAs (Decidable (p.mask_flags &&& K.MTD_WRITEABLE = K.MTD_WRITEABLE))

instance (K : Headers) (p : mtd_partition) : Decidable (keeps_writeable K p) :=
  inferInstanceAs (Decidable (p.mask_flags &&& K.MTD_WRITEABLE = 0))

/-! ## Prior table contents and LED pins -/

/-- A table left over from an earlier use: every entry is named, sized and
has `MTD_WRITEABLE` (`0x400`) in its `mask_flags`. -/
def staleParts : List mtd_partition :=
  List.replicate RBSPI_PARTS { name := some "old", size := 7, offset := 9, mask_flags := 0x400 }

/-- The `name`, `offset` and `size` of an entry, without its `mask_flags`. -/
def layout (p : mtd_partition) : Option String × Nat × Nat :=
  (p.name, p.offset, p.size)

/-- The GPIO numbers of an LED table, in table order. -/
def led_gpios (leds : List gpio_led) : List Nat :=
  leds.map (fun l => l.gpio)

/-- The seven LED tables of the file. -/
def led_tables (K : Headers) : List (List gpio_led) :=
  [rbmapl_leds K, rbhapl_leds, rb952_leds, rbwap_leds, rbcap_leds, rbmap_leds K, rblhg_leds K]

/-- An LED behind the shift register: its GPIO number is in the range that
starts at `RBSPI_SSR_GPIO_BASE`. -/
def ssr_backed (l : gpio_led) : Prop :=
  RBSPI_SSR_GPIO_BASE ≤ l.gpio

instance (l : gpio_led) : Decidable (ssr_backed l) :=
  inferInstanceAs (Decidable (RBSPI_SSR_GPIO_BASE ≤ l.gpio))

/-! ## Arithmetic helpers -/

theorem U32_le_mtd_mod (K : Headers) : U32 ≤ K.mtd_mod := by
  unfold U32 Headers.mtd_mod
  exact Nat.pow_le_pow_right (by decide) K.mtd_bits_ge

theorem mtd_mod_pos (K : Headers) : 0 < K.mtd_mod := by
  have := U32_le_mtd_mod K
  have h : 0 < U32 := by decide
  omega

theorem mtd_add_of_lt (K : Headers) (a b : Nat) (h : a + b < K.mtd_mod) :
    mtd_add K a b = a + b := by
  unfold mtd_add; exact Nat.mod_eq_of_lt h

theorem u32_add_of_lt (a b : Nat) (h : a + b < U32) : u32_add a b = a + b := by
  unfold u32_add; exact Nat.mod_eq_of_lt h

theorem u32_add_lt (a b : Nat) : u32_add a b < U32 := by
  unfold u32_add; exact Nat.mod_lt _ (by decide)

theorem mtd_add_lt (K : Headers) (a b : Nat) : mtd_add K a b < K.mtd_mod := by
  unfold mtd_add; exact Nat.mod_lt _ (mtd_mod_pos K)

/-- Without borrow the machine difference is the difference. -/
theorem mtd_sub_of_le (K : Headers) (a b : Nat) (ha : a < K.mtd_mod) (hb : b ≤ a) :
    mtd_sub K a b = a - b := by
  unfold mtd_sub
  have hb2 : b < K.mtd_mod := by omega
  rw [Nat.mod_eq_of_lt ha, Nat.mod_eq_of_lt hb2]
  have : a + (K.mtd_mod - b) = (a - b) + K.mtd_mod := by omega
  rw [this, Nat.add_mod_right]
  exact Nat.mod_eq_of_lt (by omega)

/-- With borrow the machine difference wraps around the modulus. -/
theorem mtd_sub_of_lt (K : Headers) (a b : Nat) (hb : b < K.mtd_mod) (hab : a < b) :
    mtd_sub K a b = K.mtd_mod - (b - a) := by
  unfold mtd_sub
  have ha : a < K.mtd_mod := by omega
  rw [Nat.mod_eq_of_lt ha, Nat.mod_eq_of_lt hb]
  have : a + (K.mtd_mod - b) = K.mtd_mod - (b - a) := by omega
  rw [this]
  exact Nat.mod_eq_of_lt (by omega)

/-- The table `rbspi_init_partitions` builds from the zeroed static array. -/
theorem init_partitions_eq (K : Headers) (info : rb_info) :
    rbspi_init_partitions K info rbspi_spi_partitions_init =
      [ { name := some "routerboot", offset := RB_ROUTERBOOT_OFFSET,
          size := info.hard_cfg_offs, mask_flags := K.MTD_WRITEABLE },
        { name := some "hard_config", offset := info.hard_cfg_offs,
          size := info.hard_cfg_size, mask_flags := K.MTD_WRITEABLE },
        { name := some "bios", offset := u32_add info.hard_cfg_offs info.hard_cfg_size,
          size := RB_BIOS_SIZE, mask_flags := K.MTD_WRITEABLE },
        { name := some "routerboot2",
          offset := mtd_add K (u32_add info.hard_cfg_offs info.hard_cfg_size) RB_BIOS_SIZE,
          size := mtd_sub K info.soft_cfg_offs
            (mtd_add K (u32_add info.hard_cfg_offs info.hard_cfg_size) RB_BIOS_SIZE),
          mask_flags := K.MTD_WRITEABLE },
        { name := some "soft_config", offset := info.soft_cfg_offs,
          size := RB_SOFT_CFG_SIZE, mask_flags := 0 },
        { name := some "firmware", offset := mtd_add K info.soft_cfg_offs RB_SOFT_CFG_SIZE,
          size := K.MTDPART_SIZ_FULL, mask_flags := 0 } ] := by
  simp [rbspi_init_partitions, rbspi_spi_partitions_init, memset_parts, set_name, set_offset,
    set_size, set_mask_flags, part, RBSPI_PARTS, RBSPI_PART_RBOOT, RBSPI_PART_HCONF,
    RBSPI_PART_BIOS, RBSPI_PART_RBOOT2, RBSPI_PART_SCONF, RBSPI_PART_FIRMW,
    mtd_partition.zero, List.replicate]


/-! ## Claims about the partition table -/

/-- C1: for every descriptor, `rbspi_init_partitions` run on the zeroed static
table yields exactly the six entries routerboot, hard_config, bios,
routerboot2, soft_config, firmware, in this order, with the offsets and sizes
the source computes from the descriptor alone (sums and the difference in the
machine types), the first four with `mask_flags = MTD_WRITEABLE` and the last
two with `mask_flags = 0`; when the sums fit in 32 bits and `soft_cfg_offs` is
not below the end of bios they are the plain sums and the plain difference;
the descriptor `0x1000, 0x1000, 0x5000` gives offsets `0, 0x1000, 0x2000,
0x3000, 0x5000, 0x6000` and sizes `0x1000, 0x1000, 0x1000, 0x2000, 0x1000,
MTDPART_SIZ_FULL`; and running the routine again on its own result gives the
same table. -/
theorem rbspi_init_partitions_table (K : Headers) (info : rb_info) (hv : info.valid) :
    let t := rbspi_init_partitions K info rbspi_spi_partitions_init
    let bios_offset := u32_add info.hard_cfg_offs info.hard_cfg_size
    let rboot2_offset := mtd_add K bios_offset RB_BIOS_SIZE
    t = [ { name := some "routerboot", offset := 0,
            size := info.hard_cfg_offs, mask_flags := K.MTD_WRITEABLE },
          { name := some "hard_config", offset := info.hard_cfg_offs,
            size := info.hard_cfg_size, mask_flags := K.MTD_WRITEABLE },
          { name := some "bios", offset := bios_offset,
            size := 0x1000, mask_flags := K.MTD_WRITEABLE },
          { name := some "routerboot2", offset := rboot2_offset,
            size := mtd_sub K info.soft_cfg_offs rboot2_offset,
            mask_flags := K.MTD_WRITEABLE },
          { name := some "soft_config", offset := info.soft_cfg_offs,
            size := 0x1000, mask_flags := 0 },
          { name := some "firmware", offset := mtd_add K info.soft_cfg_offs 0x1000,
            size := K.MTDPART_SIZ_FULL, mask_flags := 0 } ] ∧
    (info.hard_cfg_offs + info.hard_cfg_size + 0x1000 < U32 →
      bios_offset = info.hard_cfg_offs + info.hard_cfg_size ∧
      rboot2_offset = info.hard_cfg_offs + info.hard_cfg_size + 0x1000) ∧
    (info.hard_cfg_offs + info.hard_cfg_size + 0x1000 ≤ info.soft_cfg_offs →
      mtd_sub K info.soft_cfg_offs rboot2_offset =
        info.soft_cfg_offs - (info.hard_cfg_offs + info.hard_cfg_size + 0x1000)) ∧
    (info.soft_cfg_offs + 0x1000 < U32 →
      mtd_add K info.soft_cfg_offs 0x1000 = info.soft_cfg_offs + 0x1000) ∧
    rbspi_init_partitions K ⟨0x1000, 0x1000, 0x5000, info.board_name⟩
        rbspi_spi_partitions_init =
      [ { name := some "routerboot", offset := 0, size := 0x1000,
          mask_flags := K.MTD_WRITEABLE },
        { name := some "hard_config", offset := 0x1000, size := 0x1000,
          mask_flags := K.MTD_WRITEABLE },
        { name := some "bios", offset := 0x2000, size := 0x1000,
          mask_flags := K.MTD_WRITEABLE },
        { name := some "routerboot2", offset := 0x3000, size := 0x2000,
          mask_flags := K.MTD_WRITEABLE },
        { name := some "soft_config", offset := 0x5000, size := 0x1000, mask_flags := 0 },
        { name := some "firmware", offset := 0x6000, size := K.MTDPART_SIZ_FULL,
          mask_flags := 0 } ] ∧
    rbspi_init_partitions K info t = t := by
  have hM := U32_le_mtd_mod K
  have hU : U32 = 4294967296 := by decide
  obtain ⟨h1, h2, h3⟩ := hv
  have key : ∀ a b : Nat, a + b < U32 → mtd_add K a b = a + b :=
    fun a b h => mtd_add_of_lt K a b (by omega)
  refine ⟨?_, ?_, ?_, ?_, ?_, ?_⟩
  · rw [init_partitions_eq]; simp [RB_ROUTERBOOT_OFFSET, RB_BIOS_SIZE, RB_SOFT_CFG_SIZE]
  · intro h
    have hb : u32_add info.hard_cfg_offs info.hard_cfg_size
        = info.hard_cfg_offs + info.hard_cfg_size := u32_add_of_lt _ _ (by omega)
    refine ⟨hb, ?_⟩
    rw [hb]; exact key _ _ (by simpa [RB_BIOS_SIZE] using h)
  · intro h
    have hb : u32_add info.hard_cfg_offs info.hard_cfg_size
        = info.hard_cfg_offs + info.hard_cfg_size := u32_add_of_lt _ _ (by omega)
    rw [hb, key _ _ (by simp only [RB_BIOS_SIZE]; omega)]
    simp only [RB_BIOS_SIZE]
    exact mtd_sub_of_le K _ _ (by omega) h
  · intro h; exact key _ _ h
  · rw [init_partitions_eq]
    have e1 : u32_add 0x1000 0x1000 = 0x2000 := by decide
    have e2 : mtd_add K 0x2000 0x1000 = 0x3000 := key _ _ (by decide)
    have e3 : mtd_sub K 0x5000 0x3000 = 0x2000 :=
      mtd_sub_of_le K _ _ (by omega) (by decide)
    have e4 : mtd_add K 0x5000 0x1000 = 0x6000 := key _ _ (by decide)
    simp [RB_ROUTERBOOT_OFFSET, RB_BIOS_SIZE, RB_SOFT_CFG_SIZE, e1, e2, e3, e4]
  · rw [init_partitions_eq]
    simp [rbspi_init_partitions, memset_parts, set_name, set_offset,
      set_size, set_mask_flags, part, RBSPI_PART_RBOOT, RBSPI_PART_HCONF,
      RBSPI_PART_BIOS, RBSPI_PART_RBOOT2, RBSPI_PART_SCONF, RBSPI_PART_FIRMW,
      mtd_partition.zero]

/-- Witness of C1: the worked example with the Linux header values. -/
theorem rbspi_init_partitions_table_witness :
    demoInfo.valid ∧
    rbspi_init_partitions linux_headers demoInfo rbspi_spi_partitions_init =
      [ { name := some "routerboot", offset := 0, size := 0x1000, mask_flags := 0x400 },
        { name := some "hard_config", offset := 0x1000, size := 0x1000, mask_flags := 0x400 },
        { name := some "bios", offset := 0x2000, size := 0x1000, mask_flags := 0x400 },
        { name := some "routerboot2", offset := 0x3000, size := 0x2000, mask_flags := 0x400 },
        { name := some "soft_config", offset := 0x5000, size := 0x1000, mask_flags := 0 },
        { name := some "firmware", offset := 0x6000, size := 0, mask_flags := 0 } ] :=
  ⟨by decide,
   (rbspi_init_partitions_table linux_headers demoInfo (by decide)).2.2.2.2.1⟩

/-- C2, as stated, fails: with `hard_cfg_offs = 0x1000`, `hard_cfg_size =
0x5000`, `soft_cfg_offs = 0x2000` (so `hard_cfg_offs < soft_cfg_offs` and
`hard_cfg_size > 0`) routerboot2 starts at `0x7000`, after soft_config at
`0x2000`: offsets decrease and entries overlap.  With `hard_cfg_offs = 0`,
`hard_cfg_size = 0x1000`, `soft_cfg_offs = 0x5000` the first entry has size
`0`, the value of `MTDPART_SIZ_FULL` in the Linux headers. -/
theorem c2_counterexample :
    ((⟨0x1000, 0x5000, 0x2000, none⟩ : rb_info).valid ∧
      (0x1000 : Nat) < 0x2000 ∧ (0 : Nat) < 0x5000 ∧
      (part (rbspi_init_partitions linux_headers ⟨0x1000, 0x5000, 0x2000, none⟩
        rbspi_spi_partitions_init) RBSPI_PART_RBOOT2).offset = 0x7000 ∧
      (part (rbspi_init_partitions linux_headers ⟨0x1000, 0x5000, 0x2000, none⟩
        rbspi_spi_partitions_init) RBSPI_PART_SCONF).offset = 0x2000 ∧
      ¬ offsets_nondecreasing (rbspi_init_partitions linux_headers
        ⟨0x1000, 0x5000, 0x2000, none⟩ rbspi_spi_partitions_init) ∧
      ¬ adjacent_disjoint (rbspi_init_partitions linux_headers
        ⟨0x1000, 0x5000, 0x2000, none⟩ rbspi_spi_partitions_init)) ∧
    ((⟨0, 0x1000, 0x5000, none⟩ : rb_info).valid ∧
      (0 : Nat) < 0x5000 ∧ (0 : Nat) < 0x1000 ∧
      (part (rbspi_init_partitions linux_headers ⟨0, 0x1000, 0x5000, none⟩
        rbspi_spi_partitions_init) RBSPI_PART_RBOOT).size = linux_headers.MTDPART_SIZ_FULL ∧
      ¬ only_last_full linux_headers (rbspi_init_partitions linux_headers
        ⟨0, 0x1000, 0x5000, none⟩ rbspi_spi_partitions_init)) := by
  simp [init_partitions_eq, offsets_nondecreasing, adjacent_disjoint, only_last_full,
    rb_info.valid, part, u32_add, mtd_add, mtd_sub, Headers.mtd_mod, linux_headers, U32,
    RBSPI_PART_RBOOT, RBSPI_PART_RBOOT2, RBSPI_PART_SCONF, RB_BIOS_SIZE, RB_SOFT_CFG_SIZE,
    RB_ROUTERBOOT_OFFSET]
  exact ⟨0, by decide, by simp⟩

/-- The table with the sums and the difference as plain numbers, for a
descriptor whose `soft_cfg_offs` is not below the end of bios. -/
theorem init_partitions_plain (K : Headers) (info : rb_info) (hv : info.valid)
    (h : info.hard_cfg_offs + info.hard_cfg_size + 0x1000 ≤ info.soft_cfg_offs)
    (hf : info.soft_cfg_offs + 0x1000 < K.mtd_mod) :
    rbspi_init_partitions K info rbspi_spi_partitions_init =
      [ { name := some "routerboot", offset := 0,
          size := info.hard_cfg_offs, mask_flags := K.MTD_WRITEABLE },
        { name := some "hard_config", offset := info.hard_cfg_offs,
          size := info.hard_cfg_size, mask_flags := K.MTD_WRITEABLE },
        { name := some "bios", offset := info.hard_cfg_offs + info.hard_cfg_size,
          size := 0x1000, mask_flags := K.MTD_WRITEABLE },
        { name := some "routerboot2",
          offset := info.hard_cfg_offs + info.hard_cfg_size + 0x1000,
          size := info.soft_cfg_offs - (info.hard_cfg_offs + info.hard_cfg_size + 0x1000),
          mask_flags := K.MTD_WRITEABLE },
        { name := some "soft_config", offset := info.soft_cfg_offs,
          size := 0x1000, mask_flags := 0 },
        { name := some "firmware", offset := info.soft_cfg_offs + 0x1000,
          size := K.MTDPART_SIZ_FULL, mask_flags := 0 } ] := by
  have hM := U32_le_mtd_mod K
  have hU : U32 = 4294967296 := by decide
  obtain ⟨h1, h2, h3⟩ := hv
  have hb : u32_add info.hard_cfg_offs info.hard_cfg_size
      = info.hard_cfg_offs + info.hard_cfg_size := u32_add_of_lt _ _ (by omega)
  have hr : mtd_add K (info.hard_cfg_offs + info.hard_cfg_size) 0x1000
      = info.hard_cfg_offs + info.hard_cfg_size + 0x1000 := mtd_add_of_lt K _ _ (by omega)
  have hs : mtd_sub K info.soft_cfg_offs (info.hard_cfg_offs + info.hard_cfg_size + 0x1000)
      = info.soft_cfg_offs - (info.hard_cfg_offs + info.hard_cfg_size + 0x1000) :=
    mtd_sub_of_le K _ _ (by omega) h
  have hw : mtd_add K info.soft_cfg_offs 0x1000 = info.soft_cfg_offs + 0x1000 :=
    mtd_add_of_lt K _ _ hf
  rw [init_partitions_eq]
  simp only [RB_ROUTERBOOT_OFFSET, RB_BIOS_SIZE, RB_SOFT_CFG_SIZE, hb, hr, hs, hw]

/-- C2, amended: for every descriptor with `0 < hard_cfg_offs`,
`0 < hard_cfg_size` and `hard_cfg_offs + hard_cfg_size + 0x1000 <
soft_cfg_offs`, where `soft_cfg_offs + 0x1000` fits the partition offset type
and `MTDPART_SIZ_FULL` is `0`, the table has six entries, offsets never
decrease, no entry overlaps a later one, and only the last entry has the
open-ended size. -/
theorem c2_amended (K : Headers) (info : rb_info) (hv : info.valid)
    (hK : K.MTDPART_SIZ_FULL = 0) (h0 : 0 < info.hard_cfg_offs)
    (hs : 0 < info.hard_cfg_size)
    (h : info.hard_cfg_offs + info.hard_cfg_size + 0x1000 < info.soft_cfg_offs)
    (hf : info.soft_cfg_offs + 0x1000 < K.mtd_mod) :
    (rbspi_init_partitions K info rbspi_spi_partitions_init).length = 6 ∧
    offsets_nondecreasing (rbspi_init_partitions K info rbspi_spi_partitions_init) ∧
    adjacent_disjoint (rbspi_init_partitions K info rbspi_spi_partitions_init) ∧
    no_overlap (rbspi_init_partitions K info rbspi_spi_partitions_init) ∧
    only_last_full K (rbspi_init_partitions K info rbspi_spi_partitions_init) := by
  rw [init_partitions_plain K info hv (by omega) hf]
  refine ⟨rfl, ?_, ?_, ?_, ?_⟩
  · simp only [offsets_nondecreasing, List.pairwise_cons, List.mem_cons, List.mem_singleton,
      forall_eq_or_imp, forall_eq, List.not_mem_nil, false_implies, implies_true,
      List.Pairwise.nil, and_true]
    omega
  · simp only [adjacent_disjoint, List.chain'_cons, List.chain'_singleton, and_true]
    omega
  · simp only [no_overlap, List.pairwise_cons, List.mem_cons, List.mem_singleton,
      forall_eq_or_imp, forall_eq, List.not_mem_nil, false_implies, implies_true,
      List.Pairwise.nil, and_true]
    omega
  · intro i hi
    simp only [List.length_cons, List.length_nil] at hi
    have : i = 0 ∨ i = 1 ∨ i = 2 ∨ i = 3 ∨ i = 4 ∨ i = 5 := by omega
    rcases this with rfl | rfl | rfl | rfl | rfl | rfl <;> simp [part, hK] <;> omega

/-- Witness of the amended C2: `hard_cfg_offs = 0x1000`, `hard_cfg_size =
0x1000`, `soft_cfg_offs = 0x5000` with the Linux header values. -/
theorem c2_amended_witness :
    (demoInfo.valid ∧ linux_headers.MTDPART_SIZ_FULL = 0 ∧ 0 < demoInfo.hard_cfg_offs ∧
      0 < demoInfo.hard_cfg_size ∧
      demoInfo.hard_cfg_offs + demoInfo.hard_cfg_size + 0x1000 < demoInfo.soft_cfg_offs ∧
      demoInfo.soft_cfg_offs + 0x1000 < linux_headers.mtd_mod) ∧
    ((rbspi_init_partitions linux_headers demoInfo rbspi_spi_partitions_init).length = 6 ∧
      offsets_nondecreasing
        (rbspi_init_partitions linux_headers demoInfo rbspi_spi_partitions_init) ∧
      adjacent_disjoint
        (rbspi_init_partitions linux_headers demoInfo rbspi_spi_partitions_init) ∧
      no_overlap (rbspi_init_partitions linux_headers demoInfo rbspi_spi_partitions_init) ∧
      only_last_full linux_headers
        (rbspi_init_partitions linux_headers demoInfo rbspi_spi_partitions_init)) :=
  ⟨⟨by decide, rfl, by decide, by decide, by decide, by decide⟩,
   c2_amended linux_headers demoInfo (by decide) rfl (by decide) (by decide) (by decide)
     (by decide)⟩

/-- C3: for every descriptor with `hard_cfg_offs + hard_cfg_size + 0x1000 ≤
soft_cfg_offs` and `soft_cfg_offs + 0x1000` below `2 ^ 32` (so none of the
sums overflows 32 bits), the table is contiguous: routerboot starts at `0` and
each of the first five entries ends exactly where the next one starts; hence
offsets never decrease and no entry overlaps a later one. -/
theorem c3_contiguous (K : Headers) (info : rb_info) (hv : info.valid)
    (h : info.hard_cfg_offs + info.hard_cfg_size + 0x1000 ≤ info.soft_cfg_offs)
    (hf : info.soft_cfg_offs + 0x1000 < U32) :
    (rbspi_init_partitions K info rbspi_spi_partitions_init).length = 6 ∧
    (part (rbspi_init_partitions K info rbspi_spi_partitions_init) RBSPI_PART_RBOOT).offset
      = 0 ∧
    contiguous (rbspi_init_partitions K info rbspi_spi_partitions_init) ∧
    offsets_nondecreasing (rbspi_init_partitions K info rbspi_spi_partitions_init) ∧
    adjacent_disjoint (rbspi_init_partitions K info rbspi_spi_partitions_init) ∧
    no_overlap (rbspi_init_partitions K info rbspi_spi_partitions_init) := by
  have hM := U32_le_mtd_mod K
  rw [init_partitions_plain K info hv h (by omega)]
  refine ⟨rfl, rfl, ?_, ?_, ?_, ?_⟩
  · simp only [contiguous, List.chain'_cons, List.chain'_singleton, and_true, true_and]
    omega
  · simp only [offsets_nondecreasing, List.pairwise_cons, List.mem_cons, List.mem_singleton,
      forall_eq_or_imp, forall_eq, List.not_mem_nil, false_implies, implies_true,
      List.Pairwise.nil, and_true]
    omega
  · simp only [adjacent_disjoint, List.chain'_cons, List.chain'_singleton, and_true]
    omega
  · simp only [no_overlap, List.pairwise_cons, List.mem_cons, List.mem_singleton,
      forall_eq_or_imp, forall_eq, List.not_mem_nil, false_implies, implies_true,
      List.Pairwise.nil, and_true]
    omega

/-- Witness of C3: the descriptor of the worked example, with 32-bit
partition members. -/
theorem c3_contiguous_witness :
    (demoInfo.valid ∧
      demoInfo.hard_cfg_offs + demoInfo.hard_cfg_size + 0x1000 ≤ demoInfo.soft_cfg_offs ∧
      demoInfo.soft_cfg_offs + 0x1000 < U32) ∧
    ((rbspi_init_partitions headers32 demoInfo rbspi_spi_partitions_init).length = 6 ∧
      (part (rbspi_init_partitions headers32 demoInfo rbspi_spi_partitions_init)
        RBSPI_PART_RBOOT).offset = 0 ∧
      contiguous (rbspi_init_partitions headers32 demoInfo rbspi_spi_partitions_init) ∧
      offsets_nondecreasing
        (rbspi_init_partitions headers32 demoInfo rbspi_spi_partitions_init) ∧
      adjacent_disjoint (rbspi_init_partitions headers32 demoInfo rbspi_spi_partitions_init) ∧
      no_overlap (rbspi_init_partitions headers32 demoInfo rbspi_spi_partitions_init)) :=
  ⟨⟨by decide, by decide, by decide⟩,
   c3_contiguous headers32 demoInfo (by decide) (by decide) (by decide)⟩

/-- C5, as stated, fails: in the table of the worked example the soft_config
entry has `mask_flags = 0`, so `MTD_WRITEABLE` (nonzero in the Linux headers)
is not masked out and the entry stays writable. -/
theorem c5_counterexample :
    linux_headers.MTD_WRITEABLE ≠ 0 ∧
    (part (rbspi_init_partitions linux_headers demoInfo rbspi_spi_partitions_init)
      RBSPI_PART_SCONF).name = some "soft_config" ∧
    (part (rbspi_init_partitions linux_headers demoInfo rbspi_spi_partitions_init)
      RBSPI_PART_SCONF).mask_flags = 0 ∧
    ¬ masks_writeable linux_headers
      (part (rbspi_init_partitions linux_headers demoInfo rbspi_spi_partitions_init)
        RBSPI_PART_SCONF) := by
  simp [init_partitions_eq, masks_writeable, part, linux_headers, RBSPI_PART_SCONF]

/-- C5, amended: for every descriptor, routerboot, hard_config, bios and
routerboot2 have `mask_flags = MTD_WRITEABLE` (the capability is masked out,
they are non-writable), and soft_config and firmware have `mask_flags = 0`
(nothing is masked out, they are writable). -/
theorem c5_amended (K : Headers) (info : rb_info) :
    (∀ i ∈ [RBSPI_PART_RBOOT, RBSPI_PART_HCONF, RBSPI_PART_BIOS, RBSPI_PART_RBOOT2],
      (part (rbspi_init_partitions K info rbspi_spi_partitions_init) i).mask_flags
          = K.MTD_WRITEABLE ∧
      masks_writeable K (part (rbspi_init_partitions K info rbspi_spi_partitions_init) i)) ∧
    (∀ i ∈ [RBSPI_PART_SCONF, RBSPI_PART_FIRMW],
      (part (rbspi_init_partitions K info rbspi_spi_partitions_init) i).mask_flags = 0 ∧
      keeps_writeable K (part (rbspi_init_partitions K info rbspi_spi_partitions_init) i)) ∧
    (List.map (fun p => p.name) (rbspi_init_partitions K info rbspi_spi_partitions_init)
      = [some "routerboot", some "hard_config", some "bios", some "routerboot2",
         some "soft_config", some "firmware"]) := by
  simp [init_partitions_eq, masks_writeable, keeps_writeable, part, RBSPI_PART_RBOOT,
    RBSPI_PART_HCONF, RBSPI_PART_BIOS, RBSPI_PART_RBOOT2, RBSPI_PART_SCONF, RBSPI_PART_FIRMW]

/-! ## Claims about the set-up routines -/

/-- C4, as stated, fails: for the descriptor `0x1000, 0x1000, 0x2000`, whose
`soft_cfg_offs` is below the end of bios at `0x3000`, `rbspi_platform_setup`
returns `0`, no error, and the table it leaves has a routerboot2 entry of size
`2 ^ 64 - 0x1000`, the wrapped-around difference. -/
theorem c4_counterexample :
    shortInfo.valid ∧
    shortInfo.soft_cfg_offs < shortInfo.hard_cfg_offs + shortInfo.hard_cfg_size + 0x1000 ∧
    (rbspi_platform_setup linux_headers shortEnv (Board.boot linux_headers)).1 = 0 ∧
    (part (rbspi_platform_setup linux_headers shortEnv
        (Board.boot linux_headers)).2.rbspi_spi_partitions RBSPI_PART_RBOOT2).size
      = 2 ^ 64 - 0x1000 := by
  simp [rbspi_platform_setup, shortEnv, shortInfo, Board.boot, init_partitions_eq,
    rb_info.valid, part, u32_add, mtd_add, mtd_sub, Headers.mtd_mod, linux_headers, U32,
    RBSPI_PART_RBOOT2, RB_BIOS_SIZE]

/-- C4, amended: for every descriptor whose `soft_cfg_offs` is below the end
of bios (`soft_cfg_offs < hard_cfg_offs + hard_cfg_size + 0x1000`, the sum
below `2 ^ 32`), `rbspi_platform_setup` reports no error: it returns `0`, and
the table built from the zeroed static array has a routerboot2 entry whose
size is the wrapped-around difference, the modulus of the partition size type
minus `hard_cfg_offs + hard_cfg_size + 0x1000 - soft_cfg_offs`. -/
theorem c4_amended (K : Headers) (E : Env) (s : Board) (info : rb_info)
    (hE : E.rb_init_info = some info) (hs : s.rbspi_spi_partitions = rbspi_spi_partitions_init)
    (ho : info.hard_cfg_offs + info.hard_cfg_size + 0x1000 < U32)
    (h : info.soft_cfg_offs < info.hard_cfg_offs + info.hard_cfg_size + 0x1000) :
    (rbspi_platform_setup K E s).1 = 0 ∧
    (rbspi_platform_setup K E s).2.rbspi_spi_partitions
      = rbspi_init_partitions K info rbspi_spi_partitions_init ∧
    (part (rbspi_init_partitions K info rbspi_spi_partitions_init) RBSPI_PART_RBOOT2).size
      = K.mtd_mod - (info.hard_cfg_offs + info.hard_cfg_size + 0x1000 - info.soft_cfg_offs) ∧
    0 < (part (rbspi_init_partitions K info rbspi_spi_partitions_init) RBSPI_PART_RBOOT2).size
    := by
  have hM := U32_le_mtd_mod K
  have hb : u32_add info.hard_cfg_offs info.hard_cfg_size
      = info.hard_cfg_offs + info.hard_cfg_size := u32_add_of_lt _ _ (by omega)
  have hr : mtd_add K (info.hard_cfg_offs + info.hard_cfg_size) 0x1000
      = info.hard_cfg_offs + info.hard_cfg_size + 0x1000 := mtd_add_of_lt K _ _ (by omega)
  have hsz : mtd_sub K info.soft_cfg_offs (info.hard_cfg_offs + info.hard_cfg_size + 0x1000)
      = K.mtd_mod - (info.hard_cfg_offs + info.hard_cfg_size + 0x1000 - info.soft_cfg_offs) :=
    mtd_sub_of_lt K _ _ (by omega) h
  have hp : (part (rbspi_init_partitions K info rbspi_spi_partitions_init)
      RBSPI_PART_RBOOT2).size
      = K.mtd_mod - (info.hard_cfg_offs + info.hard_cfg_size + 0x1000 - info.soft_cfg_offs) := by
    rw [init_partitions_eq]
    simp only [part, RBSPI_PART_RBOOT2, RB_BIOS_SIZE, hb, hr, hsz]
    rfl
  refine ⟨?_, ?_, hp, ?_⟩
  · simp [rbspi_platform_setup, hE]
  · simp [rbspi_platform_setup, hE, hs]
  · rw [hp]; omega

/-- Witness of the amended C4: the descriptor `0x1000, 0x1000, 0x2000` with
32-bit partition members, where the size wraps to `2 ^ 32 - 0x1000`. -/
theorem c4_amended_witness :
    (shortEnv.rb_init_info = some shortInfo ∧
      (Board.boot headers32).rbspi_spi_partitions = rbspi_spi_partitions_init ∧
      shortInfo.hard_cfg_offs + shortInfo.hard_cfg_size + 0x1000 < U32 ∧
      shortInfo.soft_cfg_offs < shortInfo.hard_cfg_offs + shortInfo.hard_cfg_size + 0x1000) ∧
    (rbspi_platform_setup headers32 shortEnv (Board.boot headers32)).1 = 0 ∧
    (part (rbspi_init_partitions headers32 shortInfo rbspi_spi_partitions_init)
      RBSPI_PART_RBOOT2).size = 2 ^ 32 - 0x1000 :=
  have w := c4_amended headers32 shortEnv (Board.boot headers32) shortInfo rfl rfl
    (by decide) (by decide)
  ⟨⟨rfl, rfl, by decide, by decide⟩, w.1, w.2.2.1⟩

theorem platform_setup_none (K : Headers) (E : Env) (s : Board)
    (hE : E.rb_init_info = none) : rbspi_platform_setup K E s = (-K.ENODEV, s) := by
  simp [rbspi_platform_setup, hE]

theorem platform_setup_some (K : Headers) (E : Env) (s : Board) (info : rb_info)
    (hE : E.rb_init_info = some info) :
    rbspi_platform_setup K E s = (0, platform_state K info s) := by
  cases hb : info.board_name <;> simp [rbspi_platform_setup, platform_state, hE, hb]

theorem neg_ENODEV_ne_zero (K : Headers) : ¬ (-K.ENODEV = 0) := by
  have hpos := K.ENODEV_pos
  omega

theorem variants_none (K : Headers) (E : Env) (s : Board) (hE : E.rb_init_info = none) :
    ∀ f ∈ variant_setups, f K E s = s := by
  have hp := platform_setup_none K E s hE
  have hne := neg_ENODEV_ne_zero K
  intro f hf
  simp only [variant_setups, List.mem_cons, List.mem_singleton, List.not_mem_nil,
    or_false] at hf
  rcases hf with rfl | rfl | rfl | rfl | rfl | rfl | rfl | rfl <;>
    simp [rbmapl_setup, rbhapl_setup, rb952_setup, rb750upr2_setup, rblhg_setup,
      rbwap_setup, rbcap_setup, rbmap_setup, hp, hne]

/-- C6: when the descriptor reader finds nothing, `rbspi_platform_setup`
returns `-ENODEV`, which is nonzero, and leaves the whole state as it was
(machine name, partition table, call sequence), and each of the eight variant
routines returns the state it was given, having called nothing; when a
descriptor is found, `rbspi_platform_setup` returns `0`, the machine name is
the formatted board name and the table is the one `rbspi_init_partitions`
builds from the descriptor. -/
theorem c6_platform_setup (K : Headers) (E : Env) (s : Board) :
    (E.rb_init_info = none →
      rbspi_platform_setup K E s = (-K.ENODEV, s) ∧
      (rbspi_platform_setup K E s).1 ≠ 0 ∧
      (∀ f ∈ variant_setups, f K E s = s ∧ new_events s (f K E s) = [])) ∧
    (∀ info, E.rb_init_info = some info →
      (rbspi_platform_setup K E s).1 = 0 ∧
      (rbspi_platform_setup K E s).2.rbspi_spi_partitions
        = rbspi_init_partitions K info s.rbspi_spi_partitions ∧
      (rbspi_platform_setup K E s).2.mips_machine_name
        = scnprintf_MikroTik 64 (info.board_name.getD "") ∧
      (rbspi_platform_setup K E s).2.trace = s.trace) := by
  constructor
  · intro hE
    have hp := platform_setup_none K E s hE
    refine ⟨hp, by rw [hp]; exact neg_ENODEV_ne_zero K, ?_⟩
    intro f hf
    have h := variants_none K E s hE f hf
    exact ⟨h, by rw [h]; simp [new_events]⟩
  · intro info hE
    rw [platform_setup_some K E s info hE]
    simp [platform_state]

/-- Witness of C6: an environment without descriptor and one with the
descriptor of the worked example, from the boot state. -/
theorem c6_platform_setup_witness :
    (noInfoEnv.rb_init_info = none ∧
      rbspi_platform_setup linux_headers noInfoEnv (Board.boot linux_headers)
        = (-19, Board.boot linux_headers) ∧
      rb952_setup linux_headers noInfoEnv (Board.boot linux_headers)
        = Board.boot linux_headers) ∧
    (demoEnv.rb_init_info = some ⟨0x1000, 0x1000, 0x5000, some "RB750UP r2"⟩ ∧
      (rbspi_platform_setup linux_headers demoEnv (Board.boot linux_headers)).1 = 0) :=
  ⟨⟨rfl,
    ((c6_platform_setup linux_headers noInfoEnv (Board.boot linux_headers)).1 rfl).1,
    (((c6_platform_setup linux_headers noInfoEnv (Board.boot linux_headers)).1 rfl).2.2
      rb952_setup (by simp [variant_setups])).1⟩,
   ⟨rfl, ((c6_platform_setup linux_headers demoEnv (Board.boot linux_headers)).2 _ rfl).1⟩⟩

/-! ## What each routine does to the state -/

theorem wlan_init_eq (E : Env) (id : Nat) (wmac_offset : Int) (s : Board) :
    rbspi_wlan_init E id wmac_offset s
      = { s with trace := s.trace ++ wlan_calls E id wmac_offset } := by
  unfold rbspi_wlan_init wlan_calls
  cases E.rb_get_ext_wlan_data id <;> simp [emit]

theorem peripherals_setup_eq (flags : Nat) (s : Board) :
    rbspi_peripherals_setup flags s
      = { s with
          rbspi_ath79_spi_data :=
            { bus_num := s.rbspi_ath79_spi_data.bus_num,
              num_chipselect := if has_flag flags RBSPI_HAS_SSR then 2 else 1,
              cs_gpios := s.rbspi_spi_cs_gpios },
          trace := s.trace ++ peripherals_calls flags s } := by
  unfold rbspi_peripherals_setup peripherals_calls
  cases has_flag flags RBSPI_HAS_SSR <;> cases has_flag flags RBSPI_HAS_USB <;>
    simp [emit, rbspi_spi_info]

theorem network_setup_eq (K : Headers) (E : Env) (flags : Nat)
    (gmac1_offset wmac0_offset wmac1_offset : Int) (s : Board) :
    rbspi_network_setup K E flags gmac1_offset wmac0_offset wmac1_offset s
      = { s with
          ath79_switch_data :=
            if has_flag flags RBSPI_HAS_WAN4 then
              { phy4_mii_en := 1,
                phy_poll_mask := s.ath79_switch_data.phy_poll_mask ||| BIT 4 }
            else s.ath79_switch_data,
          ath79_eth0_data :=
            if has_flag flags RBSPI_HAS_WAN4 then
              { phy_if_mode := .PHY_INTERFACE_MODE_MII, phy_mask := BIT 4,
                mac_addr := E.ath79_init_mac E.ath79_mac_base 0 }
            else s.ath79_eth0_data,
          ath79_eth1_data :=
            { phy_if_mode := .PHY_INTERFACE_MODE_GMII,
              phy_mask := s.ath79_eth1_data.phy_mask,
              mac_addr := E.ath79_init_mac E.ath79_mac_base gmac1_offset },
          trace := s.trace ++ network_calls K E flags wmac0_offset wmac1_offset } := by
  unfold rbspi_network_setup network_calls ethernet_calls
  simp only [wlan_init_eq]
  cases has_flag flags RBSPI_HAS_MDIO1 <;> cases has_flag flags RBSPI_HAS_WAN4 <;>
    cases has_flag flags RBSPI_HAS_WLAN0 <;> cases has_flag flags RBSPI_HAS_WLAN1 <;>
    simp [emit]

theorem new_events_append (s s' : Board) (evs : List Event)
    (h : s'.trace = s.trace ++ evs) : new_events s s' = evs := by
  simp [new_events, h]

/-- C7: for every flag set and all offsets, with `RBSPI_HAS_WAN4` set
`rbspi_network_setup` puts `ath79_eth0_data` in MII mode with `phy_mask =
BIT(4)` and the address for offset `0`, registers eth 0 once, sets
`phy4_mii_en = 1`, ors `BIT(4)` into `phy_poll_mask` and calls
`ath79_setup_ar934x_eth_cfg` with `0` only; with the flag unset it leaves
`ath79_eth0_data` and `ath79_switch_data` as they were, never registers
eth 0, and calls `ath79_setup_ar934x_eth_cfg` with
`AR934X_ETH_CFG_SW_ONLY_MODE` only; so eth 0 is registered exactly when the
flag is set.  In both cases eth 1 is registered exactly once, in GMII mode,
with the address for `gmac1_offset`. -/
theorem c7_network_setup (K : Headers) (E : Env) (flags : Nat)
    (gmac1_offset wmac0_offset wmac1_offset : Int) (s : Board) :
    let s' := rbspi_network_setup K E flags gmac1_offset wmac0_offset wmac1_offset s
    let evs := new_events s s'
    (has_flag flags RBSPI_HAS_WAN4 = true →
      s'.ath79_eth0_data.phy_if_mode = .PHY_INTERFACE_MODE_MII ∧
      s'.ath79_eth0_data.phy_mask = BIT 4 ∧
      s'.ath79_eth0_data.mac_addr = E.ath79_init_mac E.ath79_mac_base 0 ∧
      evs.count (Event.ath79_register_eth 0) = 1 ∧
      s'.ath79_switch_data.phy4_mii_en = 1 ∧
      s'.ath79_switch_data.phy_poll_mask = s.ath79_switch_data.phy_poll_mask ||| BIT 4 ∧
      s'.ath79_switch_data.phy_poll_mask.testBit 4 = true ∧
      (∀ m, Event.ath79_setup_ar934x_eth_cfg m ∈ evs ↔ m = 0)) ∧
    (has_flag flags RBSPI_HAS_WAN4 = false →
      s'.ath79_eth0_data = s.ath79_eth0_data ∧
      s'.ath79_switch_data = s.ath79_switch_data ∧
      Event.ath79_register_eth 0 ∉ evs ∧
      (∀ m, Event.ath79_setup_ar934x_eth_cfg m ∈ evs ↔
        m = K.AR934X_ETH_CFG_SW_ONLY_MODE)) ∧
    (Event.ath79_register_eth 0 ∈ evs ↔ has_flag flags RBSPI_HAS_WAN4 = true) ∧
    evs.count (Event.ath79_register_eth 1) = 1 ∧
    s'.ath79_eth1_data.phy_if_mode = .PHY_INTERFACE_MODE_GMII ∧
    s'.ath79_eth1_data.mac_addr = E.ath79_init_mac E.ath79_mac_base gmac1_offset := by
  intro s' evs
  have hs' : s' = _ := network_setup_eq K E flags gmac1_offset wmac0_offset wmac1_offset s
  have hev : evs = network_calls K E flags wmac0_offset wmac1_offset :=
    new_events_append s s' _ (by rw [hs'])
  have hbit : (s.ath79_switch_data.phy_poll_mask ||| BIT 4).testBit 4 = true := by
    have h16 : (BIT 4).testBit 4 = true := by decide
    simp [Nat.testBit_or, h16]
  rw [hev, hs']
  unfold network_calls ethernet_calls wlan_calls
  cases has_flag flags RBSPI_HAS_MDIO1 <;> cases hw : has_flag flags RBSPI_HAS_WAN4 <;>
    cases has_flag flags RBSPI_HAS_WLAN0 <;> cases has_flag flags RBSPI_HAS_WLAN1 <;>
    cases E.rb_get_ext_wlan_data 0 <;> cases E.rb_get_ext_wlan_data 1 <;>
    simp [hbit]

/-- Witness of C7: the flag set of the hEX lite (`RBSPI_HAS_WAN4 |
RBSPI_HAS_SSR`) registers eth 0, the flag set `RBSPI_HAS_WLAN0` does not. -/
theorem c7_network_setup_witness :
    (has_flag (RBSPI_HAS_WAN4 ||| RBSPI_HAS_SSR) RBSPI_HAS_WAN4 = true ∧
      (new_events (Board.boot linux_headers)
        (rbspi_network_setup linux_headers demoEnv (RBSPI_HAS_WAN4 ||| RBSPI_HAS_SSR) 1 5 0
          (Board.boot linux_headers))).count (Event.ath79_register_eth 0) = 1) ∧
    (has_flag RBSPI_HAS_WLAN0 RBSPI_HAS_WAN4 = false ∧
      Event.ath79_register_eth 0 ∉ new_events (Board.boot linux_headers)
        (rbspi_network_setup linux_headers demoEnv RBSPI_HAS_WLAN0 0 1 0
          (Board.boot linux_headers))) :=
  ⟨⟨by decide,
    ((c7_network_setup linux_headers demoEnv (RBSPI_HAS_WAN4 ||| RBSPI_HAS_SSR) 1 5 0
      (Board.boot linux_headers)).1 (by decide)).2.2.2.1⟩,
   ⟨by decide,
    ((c7_network_setup linux_headers demoEnv RBSPI_HAS_WLAN0 0 1 0
      (Board.boot linux_headers)).2.1 (by decide)).2.2.1⟩⟩

theorem rbspi_952_750r2_trace (K : Headers) (E : Env) (flags : Nat) (s : Board) :
    (rbspi_952_750r2_setup K E flags s).trace
      = s.trace ++ rbspi_952_750r2_calls K E flags s := by
  unfold rbspi_952_750r2_setup rbspi_952_750r2_calls
  simp only [network_setup_eq, peripherals_setup_eq]
  cases has_flag flags RBSPI_HAS_SSR <;> cases has_flag flags RBSPI_HAS_USB <;>
    cases has_flag flags RBSPI_HAS_POE <;> simp [emit, peripherals_calls]

theorem rb750upr2_flags_cases (machine_name : String) :
    rb750upr2_flags machine_name = RBSPI_HAS_WAN4 ||| RBSPI_HAS_SSR ∨
    rb750upr2_flags machine_name
      = RBSPI_HAS_WAN4 ||| RBSPI_HAS_SSR ||| (RBSPI_HAS_USB ||| RBSPI_HAS_POE) := by
  unfold rb750upr2_flags
  cases strstr machine_name "750UP r2" <;> simp

theorem rb750upr2_no_radio_flag (machine_name : String) :
    has_flag (rb750upr2_flags machine_name) RBSPI_HAS_WLAN0 = false ∧
    has_flag (rb750upr2_flags machine_name) RBSPI_HAS_WLAN1 = false := by
  rcases rb750upr2_flags_cases machine_name with h | h <;> rw [h] <;> decide

theorem lookup_id_eq_some (e : Event) (id : Nat) :
    lookup_id e = some id ↔ e = Event.rb_get_ext_wlan_data id := by
  cases e <;> simp [lookup_id]

theorem mem_lookup_iff (evs : List Event) (id : Nat) :
    Event.rb_get_ext_wlan_data id ∈ evs ↔ id ∈ evs.filterMap lookup_id := by
  simp [List.mem_filterMap, lookup_id_eq_some]

theorem lookup_id_peripherals (flags : Nat) (s : Board) :
    (peripherals_calls flags s).filterMap lookup_id = [] := by
  unfold peripherals_calls
  cases has_flag flags RBSPI_HAS_USB <;> simp [lookup_id]

theorem wmac_args_peripherals (flags : Nat) (s : Board) :
    (peripherals_calls flags s).filterMap wmac_args = [] := by
  unfold peripherals_calls
  cases has_flag flags RBSPI_HAS_USB <;> simp [wmac_args]

theorem lookup_id_ethernet (K : Headers) (flags : Nat) :
    (ethernet_calls K flags).filterMap lookup_id = [] := by
  unfold ethernet_calls
  cases has_flag flags RBSPI_HAS_MDIO1 <;> cases has_flag flags RBSPI_HAS_WAN4 <;>
    simp [lookup_id]

theorem wmac_args_ethernet (K : Headers) (flags : Nat) :
    (ethernet_calls K flags).filterMap wmac_args = [] := by
  unfold ethernet_calls
  cases has_flag flags RBSPI_HAS_MDIO1 <;> cases has_flag flags RBSPI_HAS_WAN4 <;>
    simp [wmac_args]

theorem lookup_id_wlan (E : Env) (id : Nat) (wmac_offset : Int) :
    (wlan_calls E id wmac_offset).filterMap lookup_id = [id] := by
  unfold wlan_calls
  cases E.rb_get_ext_wlan_data id <;> simp [lookup_id]

theorem wmac_args_wlan (E : Env) (id : Nat) (wmac_offset : Int) :
    (wlan_calls E id wmac_offset).filterMap wmac_args
      = (match E.rb_get_ext_wlan_data id with
         | some art_buf =>
           [(art_buf + 0x1000, E.ath79_init_mac E.ath79_mac_base wmac_offset)]
         | none => []) := by
  unfold wlan_calls
  cases E.rb_get_ext_wlan_data id <;> simp [wmac_args]

theorem lookup_id_network (K : Headers) (E : Env) (flags : Nat)
    (wmac0_offset wmac1_offset : Int) :
    (network_calls K E flags wmac0_offset wmac1_offset).filterMap lookup_id
      = (if has_flag flags RBSPI_HAS_WLAN0 then [0] else []) ++
        (if has_flag flags RBSPI_HAS_WLAN1 then [1] else []) := by
  unfold network_calls
  cases has_flag flags RBSPI_HAS_WLAN0 <;> cases has_flag flags RBSPI_HAS_WLAN1 <;>
    simp [List.filterMap_append, lookup_id_ethernet, lookup_id_wlan]

theorem wmac_args_network (K : Headers) (E : Env) (flags : Nat)
    (wmac0_offset wmac1_offset : Int) :
    (network_calls K E flags wmac0_offset wmac1_offset).filterMap wmac_args
      = (if has_flag flags RBSPI_HAS_WLAN0 then
           (match E.rb_get_ext_wlan_data 0 with
            | some art_buf =>
              [(art_buf + 0x1000, E.ath79_init_mac E.ath79_mac_base wmac0_offset)]
            | none => [])
         else []) ++
        (if has_flag flags RBSPI_HAS_WLAN1 then
           (match E.rb_get_ext_wlan_data 1 with
            | some art_buf =>
              [(art_buf + 0x1000, E.ath79_init_mac E.ath79_mac_base wmac1_offset)]
            | none => [])
         else []) := by
  unfold network_calls
  cases has_flag flags RBSPI_HAS_WLAN0 <;> cases has_flag flags RBSPI_HAS_WLAN1 <;>
    simp [List.filterMap_append, wmac_args_ethernet, wmac_args_wlan]

theorem lookup_id_952_750r2 (K : Headers) (E : Env) (flags : Nat) (s : Board) :
    (rbspi_952_750r2_calls K E flags s).filterMap lookup_id
      = (network_calls K E flags 5 0).filterMap lookup_id := by
  unfold rbspi_952_750r2_calls
  cases has_flag flags RBSPI_HAS_USB <;> cases has_flag flags RBSPI_HAS_POE <;>
    simp [List.filterMap_append, lookup_id_peripherals, lookup_id]

theorem wmac_args_952_750r2 (K : Headers) (E : Env) (flags : Nat) (s : Board) :
    (rbspi_952_750r2_calls K E flags s).filterMap wmac_args
      = (network_calls K E flags 5 0).filterMap wmac_args := by
  unfold rbspi_952_750r2_calls
  cases has_flag flags RBSPI_HAS_USB <;> cases has_flag flags RBSPI_HAS_POE <;>
    simp [List.filterMap_append, wmac_args_peripherals, wmac_args]

theorem rb750upr2_trace (K : Headers) (E : Env) (s : Board) (info : rb_info)
    (hE : E.rb_init_info = some info) :
    (rb750upr2_setup K E s).trace = s.trace ++
      rbspi_952_750r2_calls K E
        (rb750upr2_flags (scnprintf_MikroTik 64 (info.board_name.getD "")))
        (platform_state K info s) := by
  unfold rb750upr2_setup
  simp [platform_setup_some K E s info hE, rbspi_952_750r2_trace, platform_state]

theorem rb750upr2_no_radio_calls (K : Headers) (E : Env) (s : Board) :
    (new_events s (rb750upr2_setup K E s)).filterMap lookup_id = [] ∧
    (new_events s (rb750upr2_setup K E s)).filterMap wmac_args = [] := by
  cases hE : E.rb_init_info with
  | none =>
    have h := variants_none K E s hE rb750upr2_setup (by simp [variant_setups])
    rw [h]; simp [new_events]
  | some info =>
    rw [new_events_append s _ _ (rb750upr2_trace K E s info hE)]
    obtain ⟨f0, f1⟩ := rb750upr2_no_radio_flag
      (scnprintf_MikroTik 64 (info.board_name.getD ""))
    rw [lookup_id_952_750r2, wmac_args_952_750r2, lookup_id_network, wmac_args_network,
      f0, f1]
    simp

/-- C8: for every flag set, the calibration lookups `rbspi_network_setup`
makes are the one for index `0` when `RBSPI_HAS_WLAN0` is set followed by the
one for index `1` when `RBSPI_HAS_WLAN1` is set, and nothing else; the radios
it registers are, in the same order, those whose lookup found data, the first
with the address for `wmac0_offset`, the second with the address for
`wmac1_offset`.  With neither flag set no call is a lookup or a radio
registration.  The flag set of `rb750upr2_setup` has neither flag, whatever
the machine name, and that routine makes no lookup and registers no radio. -/
theorem c8_radio_lookups (K : Headers) (E : Env) (flags : Nat)
    (gmac1_offset wmac0_offset wmac1_offset : Int) (s : Board) :
    let evs := new_events s
      (rbspi_network_setup K E flags gmac1_offset wmac0_offset wmac1_offset s)
    evs.filterMap lookup_id
      = (if has_flag flags RBSPI_HAS_WLAN0 then [0] else []) ++
        (if has_flag flags RBSPI_HAS_WLAN1 then [1] else []) ∧
    (Event.rb_get_ext_wlan_data 0 ∈ evs ↔ has_flag flags RBSPI_HAS_WLAN0 = true) ∧
    (Event.rb_get_ext_wlan_data 1 ∈ evs ↔ has_flag flags RBSPI_HAS_WLAN1 = true) ∧
    evs.filterMap wmac_args
      = (if has_flag flags RBSPI_HAS_WLAN0 then
           (match E.rb_get_ext_wlan_data 0 with
            | some art_buf =>
              [(art_buf + 0x1000, E.ath79_init_mac E.ath79_mac_base wmac0_offset)]
            | none => [])
         else []) ++
        (if has_flag flags RBSPI_HAS_WLAN1 then
           (match E.rb_get_ext_wlan_data 1 with
            | some art_buf =>
              [(art_buf + 0x1000, E.ath79_init_mac E.ath79_mac_base wmac1_offset)]
            | none => [])
         else []) ∧
    (has_flag flags RBSPI_HAS_WLAN0 = false → has_flag flags RBSPI_HAS_WLAN1 = false →
      ∀ e ∈ evs, lookup_id e = none ∧ wmac_args e = none) ∧
    (∀ machine_name,
      has_flag (rb750upr2_flags machine_name) RBSPI_HAS_WLAN0 = false ∧
      has_flag (rb750upr2_flags machine_name) RBSPI_HAS_WLAN1 = false) ∧
    (∀ e ∈ new_events s (rb750upr2_setup K E s),
      lookup_id e = none ∧ wmac_args e = none) := by
  intro evs
  have hev : evs = network_calls K E flags wmac0_offset wmac1_offset :=
    new_events_append s _ _ (by rw [network_setup_eq])
  have hl := lookup_id_network K E flags wmac0_offset wmac1_offset
  have hw := wmac_args_network K E flags wmac0_offset wmac1_offset
  rw [← hev] at hl hw
  refine ⟨hl, ?_, ?_, hw, ?_, rb750upr2_no_radio_flag, ?_⟩
  · rw [mem_lookup_iff, hl]
    cases has_flag flags RBSPI_HAS_WLAN0 <;> cases has_flag flags RBSPI_HAS_WLAN1 <;> simp
  · rw [mem_lookup_iff, hl]
    cases has_flag flags RBSPI_HAS_WLAN0 <;> cases has_flag flags RBSPI_HAS_WLAN1 <;> simp
  · intro h0 h1 e he
    rw [h0, h1] at hl hw
    exact ⟨List.filterMap_eq_nil_iff.mp hl e he, List.filterMap_eq_nil_iff.mp hw e he⟩
  · intro e he
    obtain ⟨h1, h2⟩ := rb750upr2_no_radio_calls K E s
    exact ⟨List.filterMap_eq_nil_iff.mp h1 e he, List.filterMap_eq_nil_iff.mp h2 e he⟩

/-- Witness of C8: the flag set `RBSPI_HAS_WAN4 | RBSPI_HAS_SSR` of the hEX
lite has no radio flag, and the network set-up makes no lookup and registers
no radio. -/
theorem c8_radio_lookups_witness :
    (has_flag (RBSPI_HAS_WAN4 ||| RBSPI_HAS_SSR) RBSPI_HAS_WLAN0 = false ∧
      has_flag (RBSPI_HAS_WAN4 ||| RBSPI_HAS_SSR) RBSPI_HAS_WLAN1 = false) ∧
    ∀ e ∈ new_events (Board.boot linux_headers)
        (rbspi_network_setup linux_headers demoEnv (RBSPI_HAS_WAN4 ||| RBSPI_HAS_SSR) 1 5 0
          (Board.boot linux_headers)),
      lookup_id e = none ∧ wmac_args e = none :=
  ⟨⟨by decide, by decide⟩,
   (c8_radio_lookups linux_headers demoEnv (RBSPI_HAS_WAN4 ||| RBSPI_HAS_SSR) 1 5 0
      (Board.boot linux_headers)).2.2.2.2.1 (by decide) (by decide)⟩

/-! ## The board routines in summary -/

theorem variant_table_setups (K : Headers) (machine_name : String) :
    (variant_table K machine_name).map Variant.setup = variant_setups := rfl

theorem rbspi_952_750r2_calls_eq (K : Headers) (E : Env) (flags : Nat) (s : Board)
    (h : has_flag flags RBSPI_HAS_SSR = true) :
    rbspi_952_750r2_calls K E flags s
      = board_calls K E flags 5 0 (set_cs1 RB952_GPIO_SSR_CS s)
          (rbspi_952_750r2_post K flags) := by
  unfold rbspi_952_750r2_calls board_calls rbspi_952_750r2_post set_cs1
  simp [h, List.append_assoc]

theorem rb750upr2_has_ssr (machine_name : String) :
    has_flag (rb750upr2_flags machine_name) RBSPI_HAS_SSR = true := by
  rcases rb750upr2_flags_cases machine_name with h | h <;> rw [h] <;> decide

theorem rbmapl_trace (K : Headers) (E : Env) (s : Board) (info : rb_info)
    (hE : E.rb_init_info = some info) :
    (rbmapl_setup K E s).trace = s.trace ++
      board_calls K E RBSPI_HAS_WLAN0 1 0 (platform_state K info s)
        [Event.ath79_register_leds_gpio (-1) (rbmapl_leds K).length (rbmapl_leds K),
         Event.ath79_register_gpio_keys_polled (-1) RBSPI_KEYS_POLL_INTERVAL
           (rbspi_gpio_keys_reset16 K).length (rbspi_gpio_keys_reset16 K),
         Event.ath79_gpio_output_select RBMAPL_GPIO_LED_ETH K.AR934X_GPIO_OUT_GPIO,
         Event.ath79_gpio_output_select RBMAPL_GPIO_LED_POWER K.AR934X_GPIO_OUT_GPIO] := by
  unfold rbmapl_setup board_calls
  simp [platform_setup_some K E s info hE, network_setup_eq, peripherals_setup_eq, emit,
    platform_state, peripherals_calls]

theorem rbhapl_trace (K : Headers) (E : Env) (s : Board) (info : rb_info)
    (hE : E.rb_init_info = some info) :
    (rbhapl_setup K E s).trace = s.trace ++
      board_calls K E RBSPI_HAS_WLAN0 4 0 (platform_state K info s)
        [Event.ath79_register_leds_gpio (-1) rbhapl_leds.length rbhapl_leds,
         Event.ath79_register_gpio_keys_polled (-1) RBSPI_KEYS_POLL_INTERVAL
           (rbspi_gpio_keys_reset16 K).length (rbspi_gpio_keys_reset16 K)] := by
  unfold rbhapl_setup board_calls
  simp [platform_setup_some K E s info hE, network_setup_eq, peripherals_setup_eq, emit,
    platform_state, peripherals_calls]

theorem rb952_trace (K : Headers) (E : Env) (s : Board) (info : rb_info)
    (hE : E.rb_init_info = some info) :
    (rb952_setup K E s).trace = s.trace ++
      board_calls K E (RBSPI_HAS_WLAN0 ||| RBSPI_HAS_WAN4 ||| RBSPI_HAS_USB |||
          RBSPI_HAS_SSR ||| RBSPI_HAS_POE) 5 0
        (set_cs1 RB952_GPIO_SSR_CS (platform_state K info s))
        (rbspi_952_750r2_post K (RBSPI_HAS_WLAN0 ||| RBSPI_HAS_WAN4 ||| RBSPI_HAS_USB |||
          RBSPI_HAS_SSR ||| RBSPI_HAS_POE)) := by
  rw [← rbspi_952_750r2_calls_eq K E _ _ (by decide)]
  unfold rb952_setup
  have ht : (platform_state K info s).trace = s.trace := by simp [platform_state]
  simp [platform_setup_some K E s info hE, rbspi_952_750r2_trace, ht]

theorem rb750upr2_trace_board (K : Headers) (E : Env) (s : Board) (info : rb_info)
    (hE : E.rb_init_info = some info) :
    (rb750upr2_setup K E s).trace = s.trace ++
      board_calls K E (rb750upr2_flags (platform_state K info s).mips_machine_name) 5 0
        (set_cs1 RB952_GPIO_SSR_CS (platform_state K info s))
        (rbspi_952_750r2_post K
          (rb750upr2_flags (platform_state K info s).mips_machine_name)) := by
  rw [← rbspi_952_750r2_calls_eq K E _ _ (rb750upr2_has_ssr _)]
  exact rb750upr2_trace K E s info hE

theorem rblhg_trace (K : Headers) (E : Env) (s : Board) (info : rb_info)
    (hE : E.rb_init_info = some info) :
    (rblhg_setup K E s).trace = s.trace ++
      board_calls K E (RBSPI_HAS_WLAN1 ||| RBSPI_HAS_MDIO1) 0 1 (platform_state K info s)
        [Event.ath79_register_leds_gpio (-1) (rblhg_leds K).length (rblhg_leds K),
         Event.ath79_register_gpio_keys_polled (-1) RBSPI_KEYS_POLL_INTERVAL
           (rblhg_gpio_keys K).length (rblhg_gpio_keys K)] := by
  unfold rblhg_setup board_calls
  simp [platform_setup_some K E s info hE, network_setup_eq, peripherals_setup_eq, emit,
    platform_state, peripherals_calls]

theorem rbwap_trace (K : Headers) (E : Env) (s : Board) (info : rb_info)
    (hE : E.rb_init_info = some info) :
    (rbwap_setup K E s).trace = s.trace ++
      board_calls K E RBSPI_HAS_WLAN0 1 0 (platform_state K info s)
        [Event.ath79_register_leds_gpio (-1) rbwap_leds.length rbwap_leds] := by
  unfold rbwap_setup board_calls
  simp [platform_setup_some K E s info hE, network_setup_eq, peripherals_setup_eq, emit,
    platform_state, peripherals_calls]

theorem rbcap_trace (K : Headers) (E : Env) (s : Board) (info : rb_info)
    (hE : E.rb_init_info = some info) :
    (rbcap_setup K E s).trace = s.trace ++
      board_calls K E RBSPI_HAS_WLAN0 1 0 (platform_state K info s)
        [Event.gpio_request_one RBCAP_GPIO_LED_ALL
           (K.GPIOF_OUT_INIT_HIGH ||| K.GPIOF_EXPORT_DIR_FIXED) "LEDs enable",
         Event.ath79_register_leds_gpio (-1) rbcap_leds.length rbcap_leds] := by
  unfold rbcap_setup board_calls
  simp [platform_setup_some K E s info hE, network_setup_eq, peripherals_setup_eq, emit,
    platform_state, peripherals_calls]

theorem rbmap_trace (K : Headers) (E : Env) (s : Board) (info : rb_info)
    (hE : E.rb_init_info = some info) :
    (rbmap_setup K E s).trace = s.trace ++
      board_calls K E (RBSPI_HAS_WLAN0 ||| RBSPI_HAS_SSR ||| RBSPI_HAS_POE) 2 0
        (set_cs1 RBMAP_GPIO_SSR_CS (platform_state K info s))
        [Event.gpio_request_one RBMAP_GPIO_POE_POWER
           (K.GPIOF_OUT_INIT_HIGH ||| K.GPIOF_EXPORT_DIR_FIXED) "POE power",
         Event.ath79_register_leds_gpio (-1) (rbmap_leds K).length (rbmap_leds K)] := by
  have hp : has_flag (RBSPI_HAS_WLAN0 ||| RBSPI_HAS_SSR ||| RBSPI_HAS_POE) RBSPI_HAS_POE
      = true := by decide
  unfold rbmap_setup board_calls
  simp [platform_setup_some K E s info hE, network_setup_eq, peripherals_setup_eq, emit,
    platform_state, peripherals_calls, set_cs1, hp]

/-- Every board routine, when the descriptor is found, appends to the call
sequence the calls its summary describes. -/
theorem variant_table_trace (K : Headers) (E : Env) (s : Board) (info : rb_info)
    (hE : E.rb_init_info = some info) :
    ∀ v ∈ variant_table K (platform_state K info s).mips_machine_name,
      (v.setup K E s).trace = s.trace ++
        board_calls K E v.flags v.wmac0_offset v.wmac1_offset
          (v.prep (platform_state K info s)) v.post := by
  intro v hv
  simp only [variant_table, List.mem_cons, List.mem_singleton, List.not_mem_nil,
    or_false] at hv
  rcases hv with rfl | rfl | rfl | rfl | rfl | rfl | rfl | rfl
  · exact rbmapl_trace K E s info hE
  · exact rbhapl_trace K E s info hE
  · exact rb952_trace K E s info hE
  · exact rb750upr2_trace_board K E s info hE
  · exact rblhg_trace K E s info hE
  · exact rbwap_trace K E s info hE
  · exact rbcap_trace K E s info hE
  · exact rbmap_trace K E s info hE

/-! ## Missing calibration data -/

theorem same_but_radio_refl (id : Nat) (t : List Event) : same_but_radio id t t :=
  Or.inl rfl

theorem same_but_radio_append (id : Nat) (a b t t' : List Event)
    (h : same_but_radio id t t') : same_but_radio id (a ++ (t ++ b)) (a ++ (t' ++ b)) := by
  rcases h with h | ⟨pre, post, c, m, p, h1, h2⟩
  · left; rw [h]
  · right
    refine ⟨a ++ pre, post ++ b, c, m, p, ?_, ?_⟩
    · rw [h1]; simp [List.append_assoc]
    · rw [h2]; simp [List.append_assoc]

theorem wlan_calls_without (E : Env) (id j : Nat) (wmac_offset : Int) :
    wlan_calls (without_data E id) j wmac_offset
      = if j = id then [Event.rb_get_ext_wlan_data j] else wlan_calls E j wmac_offset := by
  unfold wlan_calls without_data
  by_cases h : j = id <;> simp [h]

theorem wlan_calls_same_but_radio (E : Env) (id : Nat) (wmac_offset : Int) :
    same_but_radio id (wlan_calls E id wmac_offset)
      (wlan_calls (without_data E id) id wmac_offset) := by
  rw [wlan_calls_without]
  unfold wlan_calls
  cases h : E.rb_get_ext_wlan_data id with
  | none => left; simp
  | some art_buf =>
    right
    exact ⟨[], [], art_buf + 0x1000, E.ath79_init_mac E.ath79_mac_base wmac_offset, art_buf,
      by simp, by simp⟩

theorem network_calls_same_but_radio (K : Headers) (E : Env) (id : Nat) (flags : Nat)
    (wmac0_offset wmac1_offset : Int) :
    same_but_radio id (network_calls K E flags wmac0_offset wmac1_offset)
      (network_calls K (without_data E id) flags wmac0_offset wmac1_offset) := by
  unfold network_calls
  by_cases h0 : id = 0
  · subst h0
    have h1 : wlan_calls (without_data E 0) 1 wmac1_offset = wlan_calls E 1 wmac1_offset := by
      rw [wlan_calls_without]; simp
    rw [h1]
    cases has_flag flags RBSPI_HAS_WLAN0
    · exact same_but_radio_refl _ _
    · have := same_but_radio_append 0 (ethernet_calls K flags)
        (if has_flag flags RBSPI_HAS_WLAN1 = true then wlan_calls E 1 wmac1_offset else [])
        _ _ (wlan_calls_same_but_radio E 0 wmac0_offset)
      simpa using this
  · have h0' : wlan_calls (without_data E id) 0 wmac0_offset = wlan_calls E 0 wmac0_offset := by
      rw [wlan_calls_without]; simp [Ne.symm h0]
    rw [h0']
    by_cases h1 : id = 1
    · subst h1
      cases has_flag flags RBSPI_HAS_WLAN1
      · exact same_but_radio_refl _ _
      · have := same_but_radio_append 1
          (ethernet_calls K flags ++
            (if has_flag flags RBSPI_HAS_WLAN0 = true then wlan_calls E 0 wmac0_offset
             else []))
          [] _ _ (wlan_calls_same_but_radio E 1 wmac1_offset)
        simpa [List.append_assoc] using this
    · have h1' : wlan_calls (without_data E id) 1 wmac1_offset
          = wlan_calls E 1 wmac1_offset := by
        rw [wlan_calls_without]; simp [Ne.symm h1]
      rw [h1']
      exact same_but_radio_refl _ _

theorem board_calls_same_but_radio (K : Headers) (E : Env) (id : Nat) (flags : Nat)
    (wmac0_offset wmac1_offset : Int) (st : Board) (post : List Event) :
    same_but_radio id (board_calls K E flags wmac0_offset wmac1_offset st post)
      (board_calls K (without_data E id) flags wmac0_offset wmac1_offset st post) := by
  unfold board_calls
  exact same_but_radio_append id _ _ _ _
    (network_calls_same_but_radio K E id flags wmac0_offset wmac1_offset)

theorem variants_same_but_radio (K : Headers) (E : Env) (id : Nat) (s : Board) :
    ∀ f ∈ variant_setups,
      same_but_radio id (new_events s (f K E s)) (new_events s (f K (without_data E id) s)) := by
  intro f hf
  cases hE : E.rb_init_info with
  | none =>
    rw [variants_none K E s hE f hf, variants_none K (without_data E id) s hE f hf]
    exact same_but_radio_refl _ _
  | some info =>
    rw [← variant_table_setups K (platform_state K info s).mips_machine_name] at hf
    obtain ⟨v, hv, rfl⟩ := List.mem_map.mp hf
    rw [new_events_append s _ _ (variant_table_trace K E s info hE v hv),
      new_events_append s _ _ (variant_table_trace K (without_data E id) s info hE v hv)]
    exact board_calls_same_but_radio K E id _ _ _ _ _

theorem untraced_network_without (K : Headers) (E : Env) (id : Nat) (flags : Nat)
    (gmac1_offset wmac0_offset wmac1_offset : Int) (s : Board) :
    untraced (rbspi_network_setup K (without_data E id) flags gmac1_offset wmac0_offset
        wmac1_offset s)
      = untraced (rbspi_network_setup K E flags gmac1_offset wmac0_offset wmac1_offset s) := by
  simp [network_setup_eq, untraced, without_data]

theorem untraced_emit (e : Event) (s : Board) : untraced (emit e s) = untraced s := by
  simp [untraced, emit]

theorem untraced_952_750r2_without (K : Headers) (E : Env) (id : Nat) (flags : Nat)
    (s : Board) :
    untraced (rbspi_952_750r2_setup K (without_data E id) flags s)
      = untraced (rbspi_952_750r2_setup K E flags s) := by
  unfold rbspi_952_750r2_setup
  cases has_flag flags RBSPI_HAS_SSR <;> cases has_flag flags RBSPI_HAS_USB <;>
    cases has_flag flags RBSPI_HAS_POE <;>
    simp [untraced_emit, untraced_network_without]

theorem untraced_variants_without (K : Headers) (E : Env) (id : Nat) (s : Board) :
    ∀ f ∈ variant_setups, untraced (f K (without_data E id) s) = untraced (f K E s) := by
  intro f hf
  cases hE : E.rb_init_info with
  | none =>
    rw [variants_none K E s hE f hf, variants_none K (without_data E id) s hE f hf]
  | some info =>
    have hE' : (without_data E id).rb_init_info = some info := hE
    have hp := platform_setup_some K E s info hE
    have hp' := platform_setup_some K (without_data E id) s info hE'
    have hpoe : has_flag (RBSPI_HAS_WLAN0 ||| RBSPI_HAS_SSR ||| RBSPI_HAS_POE) RBSPI_HAS_POE
        = true := by decide
    simp only [variant_setups, List.mem_cons, List.mem_singleton, List.not_mem_nil,
      or_false] at hf
    rcases hf with rfl | rfl | rfl | rfl | rfl | rfl | rfl | rfl
    · simp [rbmapl_setup, hp, hp', untraced_emit, untraced_network_without]
    · simp [rbhapl_setup, hp, hp', untraced_emit, untraced_network_without]
    · simp [rb952_setup, hp, hp', untraced_952_750r2_without]
    · simp [rb750upr2_setup, hp, hp', untraced_952_750r2_without]
    · simp [rblhg_setup, hp, hp', untraced_emit, untraced_network_without]
    · simp [rbwap_setup, hp, hp', untraced_emit, untraced_network_without]
    · simp [rbcap_setup, hp, hp', untraced_emit, untraced_network_without]
    · simp [rbmap_setup, hp, hp', untraced_emit, untraced_network_without, hpoe]

/-- C9: for every radio index and offset, when `rb_get_ext_wlan_data` finds a
buffer `rbspi_wlan_init` makes the lookup, registers the radio with the
calibration pointer `0x1000` bytes into the buffer and the address for
`wmac_offset`, and frees the buffer; when nothing is found it makes the
lookup alone; so a radio is registered exactly when data is found, and the
globals are untouched either way.  Taking the data of radio `id` away changes
nothing else: `rbspi_network_setup` and each of the eight board routines
leave the same globals, and their call sequence is the same or differs only
by the registration and buffer release of that radio being left out. -/
theorem c9_missing_calibration (K : Headers) (E : Env) (id : Nat) (wmac_offset : Int)
    (s : Board) (flags : Nat) (gmac1_offset wmac0_offset wmac1_offset : Int) :
    (∀ art_buf, E.rb_get_ext_wlan_data id = some art_buf →
      new_events s (rbspi_wlan_init E id wmac_offset s)
        = [Event.rb_get_ext_wlan_data id,
           Event.ath79_register_wmac (art_buf + 0x1000)
             (E.ath79_init_mac E.ath79_mac_base wmac_offset),
           Event.kfree art_buf]) ∧
    (E.rb_get_ext_wlan_data id = none →
      new_events s (rbspi_wlan_init E id wmac_offset s) = [Event.rb_get_ext_wlan_data id]) ∧
    ((∃ cal_data mac_addr, Event.ath79_register_wmac cal_data mac_addr ∈
        new_events s (rbspi_wlan_init E id wmac_offset s)) ↔
      (E.rb_get_ext_wlan_data id).isSome = true) ∧
    untraced (rbspi_wlan_init E id wmac_offset s) = untraced s ∧
    untraced (rbspi_network_setup K (without_data E id) flags gmac1_offset wmac0_offset
        wmac1_offset s)
      = untraced (rbspi_network_setup K E flags gmac1_offset wmac0_offset wmac1_offset s) ∧
    same_but_radio id
      (new_events s
        (rbspi_network_setup K E flags gmac1_offset wmac0_offset wmac1_offset s))
      (new_events s
        (rbspi_network_setup K (without_data E id) flags gmac1_offset wmac0_offset
          wmac1_offset s)) ∧
    (∀ f ∈ variant_setups,
      untraced (f K (without_data E id) s) = untraced (f K E s) ∧
      same_but_radio id (new_events s (f K E s))
        (new_events s (f K (without_data E id) s))) := by
  have hw : new_events s (rbspi_wlan_init E id wmac_offset s) = wlan_calls E id wmac_offset :=
    new_events_append s _ _ (by rw [wlan_init_eq])
  refine ⟨?_, ?_, ?_, ?_, untraced_network_without K E id flags _ _ _ s, ?_, ?_⟩
  · intro art_buf h
    rw [hw]; simp [wlan_calls, h]
  · intro h
    rw [hw]; simp [wlan_calls, h]
  · rw [hw]; unfold wlan_calls
    cases E.rb_get_ext_wlan_data id <;> simp
  · simp [wlan_init_eq, untraced]
  · rw [new_events_append s _ _ (by rw [network_setup_eq]),
      new_events_append s _ _ (by rw [network_setup_eq])]
    exact network_calls_same_but_radio K E id flags wmac0_offset wmac1_offset
  · intro f hf
    exact ⟨untraced_variants_without K E id s f hf, variants_same_but_radio K E id s f hf⟩

/-- Witness of C9: radio `0` of the mAP lite with data at `0x80000000` is
registered with calibration pointer `0x80001000`; without the data
`rbmapl_setup` leaves the same globals. -/
theorem c9_missing_calibration_witness :
    (demoEnv.rb_get_ext_wlan_data 0 = some 0x80000000 ∧
      new_events (Board.boot linux_headers)
          (rbspi_wlan_init demoEnv 0 1 (Board.boot linux_headers))
        = [Event.rb_get_ext_wlan_data 0,
           Event.ath79_register_wmac (0x80000000 + 0x1000)
             (demoEnv.ath79_init_mac demoEnv.ath79_mac_base 1),
           Event.kfree 0x80000000]) ∧
    ((without_data demoEnv 0).rb_get_ext_wlan_data 0 = none ∧
      new_events (Board.boot linux_headers)
          (rbspi_wlan_init (without_data demoEnv 0) 0 1 (Board.boot linux_headers))
        = [Event.rb_get_ext_wlan_data 0]) ∧
    untraced (rbmapl_setup linux_headers (without_data demoEnv 0) (Board.boot linux_headers))
      = untraced (rbmapl_setup linux_headers demoEnv (Board.boot linux_headers)) :=
  ⟨⟨rfl, (c9_missing_calibration linux_headers demoEnv 0 1 (Board.boot linux_headers)
      0 0 0 0).1 _ rfl⟩,
   ⟨rfl, (c9_missing_calibration linux_headers (without_data demoEnv 0) 0 1
      (Board.boot linux_headers) 0 0 0 0).2.1 rfl⟩,
   ((c9_missing_calibration linux_headers demoEnv 0 1 (Board.boot linux_headers)
      0 0 0 0).2.2.2.2.2.2 rbmapl_setup (by simp [variant_setups])).1⟩

/-! ## Order of the registrations -/

theorem post_ok_952_750r2 (K : Headers) (flags : Nat) :
    post_ok flags (rbspi_952_750r2_post K flags) := by
  unfold post_ok rbspi_952_750r2_post
  cases h1 : has_flag flags RBSPI_HAS_USB <;> cases h2 : has_flag flags RBSPI_HAS_POE <;>
    simp [stage, gpio_label]

theorem variant_table_post_ok (K : Headers) (machine_name : String) :
    ∀ v ∈ variant_table K machine_name, post_ok v.flags v.post := by
  have a1 : has_flag RBSPI_HAS_WLAN0 RBSPI_HAS_USB = false := by decide
  have a2 : has_flag RBSPI_HAS_WLAN0 RBSPI_HAS_POE = false := by decide
  have b1 : has_flag (RBSPI_HAS_WLAN1 ||| RBSPI_HAS_MDIO1) RBSPI_HAS_USB = false := by decide
  have b2 : has_flag (RBSPI_HAS_WLAN1 ||| RBSPI_HAS_MDIO1) RBSPI_HAS_POE = false := by decide
  have c1 : has_flag (RBSPI_HAS_WLAN0 ||| RBSPI_HAS_SSR ||| RBSPI_HAS_POE) RBSPI_HAS_USB
      = false := by decide
  have c2 : has_flag (RBSPI_HAS_WLAN0 ||| RBSPI_HAS_SSR ||| RBSPI_HAS_POE) RBSPI_HAS_POE
      = true := by decide
  intro v hv
  simp only [variant_table, List.mem_cons, List.mem_singleton, List.not_mem_nil,
    or_false] at hv
  rcases hv with rfl | rfl | rfl | rfl | rfl | rfl | rfl | rfl
  · simp [post_ok, stage, gpio_label, a1, a2]
  · simp [post_ok, stage, gpio_label, a1, a2]
  · exact post_ok_952_750r2 K _
  · exact post_ok_952_750r2 K _
  · simp [post_ok, stage, gpio_label, b1, b2]
  · simp [post_ok, stage, gpio_label, a1, a2]
  · simp [post_ok, stage, gpio_label, a1, a2]
  · simp [post_ok, stage, gpio_label, c1, c2]

theorem stage_peripherals (flags : Nat) (st : Board) :
    List.Pairwise (fun a b : Nat => a ≤ b) ((peripherals_calls flags st).map stage) ∧
    (∀ e ∈ peripherals_calls flags st, stage e ≤ 2) := by
  unfold peripherals_calls
  cases has_flag flags RBSPI_HAS_USB <;> simp [stage]

theorem stage_ethernet (K : Headers) (flags : Nat) :
    ∀ e ∈ ethernet_calls K flags, stage e = 3 := by
  unfold ethernet_calls
  cases has_flag flags RBSPI_HAS_MDIO1 <;> cases has_flag flags RBSPI_HAS_WAN4 <;>
    simp [stage]

theorem stage_wlan (E : Env) (id : Nat) (wmac_offset : Int) :
    ∀ e ∈ wlan_calls E id wmac_offset, stage e = 4 := by
  unfold wlan_calls
  cases E.rb_get_ext_wlan_data id <;> simp [stage]

theorem stage_network (K : Headers) (E : Env) (flags : Nat)
    (wmac0_offset wmac1_offset : Int) :
    List.Pairwise (fun a b : Nat => a ≤ b)
      ((network_calls K E flags wmac0_offset wmac1_offset).map stage) ∧
    (∀ e ∈ network_calls K E flags wmac0_offset wmac1_offset,
      3 ≤ stage e ∧ stage e ≤ 4) := by
  have he := stage_ethernet K flags
  have h0 := stage_wlan E 0 wmac0_offset
  have h1 := stage_wlan E 1 wmac1_offset
  have hr : ∀ e ∈ (if has_flag flags RBSPI_HAS_WLAN0 = true then wlan_calls E 0 wmac0_offset
      else []) ++ (if has_flag flags RBSPI_HAS_WLAN1 = true then wlan_calls E 1 wmac1_offset
      else []), stage e = 4 := by
    intro e hm
    rcases List.mem_append.mp hm with hm | hm
    · split at hm
      · exact h0 e hm
      · simp at hm
    · split at hm
      · exact h1 e hm
      · simp at hm
  unfold network_calls
  constructor
  · rw [List.map_append, List.pairwise_append]
    refine ⟨?_, ?_, ?_⟩
    · rw [List.pairwise_map]
      exact List.pairwise_of_forall_mem_list (fun a ha b hb => by rw [he a ha, he b hb])
    · rw [List.pairwise_map]
      exact List.pairwise_of_forall_mem_list (fun a ha b hb => by rw [hr a ha, hr b hb])
    · intro a ha b hb
      obtain ⟨x, hx, rfl⟩ := List.mem_map.mp ha
      obtain ⟨y, hy, rfl⟩ := List.mem_map.mp hb
      rw [he x hx, hr y hy]; decide
  · intro e hm
    rcases List.mem_append.mp hm with hm | hm
    · rw [he e hm]; decide
    · rw [hr e hm]; decide

theorem stage_board (K : Headers) (E : Env) (flags : Nat) (wmac0_offset wmac1_offset : Int)
    (st : Board) (post : List Event)
    (hs : List.Pairwise (fun a b : Nat => a ≤ b) (post.map stage))
    (hb : ∀ e ∈ post, 5 ≤ stage e) :
    List.Pairwise (fun a b : Nat => a ≤ b)
      ((board_calls K E flags wmac0_offset wmac1_offset st post).map stage) := by
  obtain ⟨p1, p2⟩ := stage_peripherals flags st
  obtain ⟨n1, n2⟩ := stage_network K E flags wmac0_offset wmac1_offset
  unfold board_calls
  rw [List.map_append, List.map_append, List.pairwise_append, List.pairwise_append]
  refine ⟨p1, ⟨n1, hs, ?_⟩, ?_⟩
  · intro a ha b hb'
    obtain ⟨x, hx, rfl⟩ := List.mem_map.mp ha
    obtain ⟨y, hy, rfl⟩ := List.mem_map.mp hb'
    have := (n2 x hx).2
    have := hb y hy
    omega
  · intro a ha b hb'
    obtain ⟨x, hx, rfl⟩ := List.mem_map.mp ha
    have hx2 := p2 x hx
    rcases List.mem_append.mp hb' with h | h
    · obtain ⟨y, hy, rfl⟩ := List.mem_map.mp h
      have := (n2 y hy).1
      omega
    · obtain ⟨y, hy, rfl⟩ := List.mem_map.mp h
      have := hb y hy
      omega

theorem stage_radios (E : Env) (flags : Nat) (wmac0_offset wmac1_offset : Int) :
    ∀ e ∈ (if has_flag flags RBSPI_HAS_WLAN0 = true then wlan_calls E 0 wmac0_offset
      else []) ++ (if has_flag flags RBSPI_HAS_WLAN1 = true then wlan_calls E 1 wmac1_offset
      else []), stage e = 4 := by
  intro e hm
  rcases List.mem_append.mp hm with hm | hm
  · split at hm
    · exact stage_wlan E 0 wmac0_offset e hm
    · simp at hm
  · split at hm
    · exact stage_wlan E 1 wmac1_offset e hm
    · simp at hm

/-- A call of stage 3 is made by `board_calls` exactly when it is among the
Ethernet calls. -/
theorem mem_board_stage3 (K : Headers) (E : Env) (flags : Nat)
    (wmac0_offset wmac1_offset : Int) (st : Board) (post : List Event)
    (hb : ∀ e ∈ post, 5 ≤ stage e) (e : Event) (he : stage e = 3) :
    e ∈ board_calls K E flags wmac0_offset wmac1_offset st post ↔
      e ∈ ethernet_calls K flags := by
  unfold board_calls network_calls
  simp only [List.mem_append]
  constructor
  · rintro (h | (h | h) | h)
    · have := (stage_peripherals flags st).2 e h; omega
    · exact h
    · have := stage_radios E flags wmac0_offset wmac1_offset e (List.mem_append.mpr h); omega
    · have := hb e h; omega
  · intro h
    exact Or.inr (Or.inl (Or.inl h))

theorem mem_board_usb (K : Headers) (E : Env) (flags : Nat)
    (wmac0_offset wmac1_offset : Int) (st : Board) (post : List Event)
    (hb : ∀ e ∈ post, 5 ≤ stage e) :
    Event.ath79_register_usb ∈ board_calls K E flags wmac0_offset wmac1_offset st post ↔
      has_flag flags RBSPI_HAS_USB = true := by
  have hs : stage Event.ath79_register_usb = 2 := rfl
  unfold board_calls
  simp only [List.mem_append]
  constructor
  · rintro (h | h | h)
    · unfold peripherals_calls at h
      cases hu : has_flag flags RBSPI_HAS_USB
      · simp [hu] at h
      · rfl
    · have := ((stage_network K E flags wmac0_offset wmac1_offset).2 _ h).1; omega
    · have := hb _ h; omega
  · intro h
    left
    unfold peripherals_calls
    simp [h]

theorem low_stage_none (e : Event) (h : stage e ≤ 4) :
    gpio_label e = none ∧ (stage e == 6) = false := by
  cases e <;> simp_all [stage, gpio_label]

theorem high_stage_none (e : Event) (h : 3 ≤ stage e) : spi_args e = none := by
  cases e <;> simp_all [stage, spi_args]

theorem post_stage_none (e : Event) (h : 5 ≤ stage e) : lookup_id e = none := by
  cases e <;> simp_all [stage, lookup_id]

theorem before_post_low (K : Headers) (E : Env) (flags : Nat)
    (wmac0_offset wmac1_offset : Int) (st : Board) :
    ∀ e ∈ peripherals_calls flags st ++ network_calls K E flags wmac0_offset wmac1_offset,
      stage e ≤ 4 := by
  intro e he
  rcases List.mem_append.mp he with h | h
  · have := (stage_peripherals flags st).2 e h; omega
  · exact ((stage_network K E flags wmac0_offset wmac1_offset).2 e h).2

theorem spi_args_peripherals (flags : Nat) (st : Board) :
    (peripherals_calls flags st).filterMap spi_args
      = [(spi_devices flags, spi_devices flags)] := by
  unfold peripherals_calls spi_devices
  cases has_flag flags RBSPI_HAS_USB <;> cases has_flag flags RBSPI_HAS_SSR <;>
    simp [spi_args]

/-- The calls of a board routine follow the fixed order when the calls it
makes after the network set-up do. -/
theorem staged_board (K : Headers) (E : Env) (flags : Nat) (wmac0_offset wmac1_offset : Int)
    (st : Board) (post : List Event) (h : post_ok flags post) :
    staged flags (board_calls K E flags wmac0_offset wmac1_offset st post) := by
  obtain ⟨hs, hb, hu, hp, hl⟩ := h
  have hlow := before_post_low K E flags wmac0_offset wmac1_offset st
  have hsplit : board_calls K E flags wmac0_offset wmac1_offset st post
      = (peripherals_calls flags st ++ network_calls K E flags wmac0_offset wmac1_offset)
        ++ post := by
    unfold board_calls; rw [List.append_assoc]
  have hg : (peripherals_calls flags st ++
      network_calls K E flags wmac0_offset wmac1_offset).filterMap gpio_label = [] :=
    List.filterMap_eq_nil_iff.mpr (fun e he => (low_stage_none e (hlow e he)).1)
  have h6 : (peripherals_calls flags st ++
      network_calls K E flags wmac0_offset wmac1_offset).filter (fun e => stage e == 6)
      = [] :=
    List.filter_eq_nil_iff.mpr
      (fun e he => by rw [(low_stage_none e (hlow e he)).2]; simp)
  refine ⟨stage_board K E flags _ _ st post hs hb, ?_, mem_board_usb K E flags _ _ st post hb,
    ?_, ?_, ?_, ?_, ?_, ?_, ?_, ?_⟩
  · unfold board_calls
    rw [List.filterMap_append, List.filterMap_append, spi_args_peripherals,
      List.filterMap_eq_nil_iff.mpr (fun e he => high_stage_none e
        ((stage_network K E flags wmac0_offset wmac1_offset).2 e he).1),
      List.filterMap_eq_nil_iff.mpr (fun e he => high_stage_none e (by
        have := hb e he; omega))]
    rfl
  · rw [mem_board_stage3 K E flags _ _ st post hb (Event.ath79_register_mdio 0 0) rfl]
    unfold ethernet_calls; simp
  · rw [mem_board_stage3 K E flags _ _ st post hb (Event.ath79_register_mdio 1 0) rfl]
    unfold ethernet_calls
    cases has_flag flags RBSPI_HAS_MDIO1 <;> cases has_flag flags RBSPI_HAS_WAN4 <;> simp
  · rw [mem_board_stage3 K E flags _ _ st post hb (Event.ath79_register_eth 0) rfl]
    unfold ethernet_calls
    cases has_flag flags RBSPI_HAS_MDIO1 <;> cases has_flag flags RBSPI_HAS_WAN4 <;> simp
  · rw [mem_board_stage3 K E flags _ _ st post hb (Event.ath79_register_eth 1) rfl]
    unfold ethernet_calls; simp
  · unfold board_calls
    rw [List.filterMap_append, List.filterMap_append, lookup_id_peripherals,
      lookup_id_network,
      List.filterMap_eq_nil_iff.mpr (fun e he => post_stage_none e (hb e he))]
    simp
  · rw [hsplit, List.filterMap_append, hg]; simpa using hu
  · rw [hsplit, List.filterMap_append, hg]; simpa using hp
  · rw [hsplit, List.filter_append, h6]; simpa using hl

/-- C10: when the descriptor is found, the calls each of the eight board
routines makes follow the fixed order for the routine's flag set: bus set-up
(one SPI registration, two devices with `RBSPI_HAS_SSR`, else one), USB host
(only with `RBSPI_HAS_USB`), network set-up (MDIO, switch and eth 0, eth 1),
radio set-up (only the radios whose flag is set), auxiliary power and enable
pins ("USB power" only with `RBSPI_HAS_USB`, "POE power" only with
`RBSPI_HAS_POE`), then the LED table and the button table; no call of a
later stage comes before a call of an earlier stage. -/
theorem c10_fixed_order (K : Headers) (E : Env) (s : Board) (info : rb_info)
    (hE : E.rb_init_info = some info) :
    (variant_table K (scnprintf_MikroTik 64 (info.board_name.getD ""))).map Variant.setup
      = variant_setups ∧
    ∀ v ∈ variant_table K (scnprintf_MikroTik 64 (info.board_name.getD "")),
      staged v.flags (new_events s (v.setup K E s)) := by
  refine ⟨rfl, ?_⟩
  intro v hv
  have hn : (platform_state K info s).mips_machine_name
      = scnprintf_MikroTik 64 (info.board_name.getD "") := by simp [platform_state]
  rw [← hn] at hv
  rw [new_events_append s _ _ (variant_table_trace K E s info hE v hv)]
  exact staged_board K E v.flags _ _ _ v.post (variant_table_post_ok K _ v hv)

/-- Witness of C10: with the descriptor of the worked example found, the calls
of `rbwap_setup` from the boot state follow the fixed order for
`RBSPI_HAS_WLAN0`. -/
theorem c10_fixed_order_witness :
    demoEnv.rb_init_info = some ⟨0x1000, 0x1000, 0x5000, some "RB750UP r2"⟩ ∧
    staged RBSPI_HAS_WLAN0
      (new_events (Board.boot linux_headers)
        (rbwap_setup linux_headers demoEnv (Board.boot linux_headers))) :=
  ⟨rfl,
   (c10_fixed_order linux_headers demoEnv (Board.boot linux_headers) _ rfl).2
     { setup := rbwap_setup, flags := RBSPI_HAS_WLAN0, wmac0_offset := 1, wmac1_offset := 0,
       prep := id,
       post := [Event.ath79_register_leds_gpio (-1) rbwap_leds.length rbwap_leds] }
     (by simp [variant_table])⟩

/-! ## Prior contents of the table -/

/-- The table `rbspi_init_partitions` leaves when the array held the six
entries `a` to `f` before: everything is assigned but the `mask_flags` of the
last two entries, which stay. -/
theorem init_partitions_from (K : Headers) (info : rb_info) (a b c d e f : mtd_partition) :
    rbspi_init_partitions K info [a, b, c, d, e, f] =
      [ { name := some "routerboot", offset := RB_ROUTERBOOT_OFFSET,
          size := info.hard_cfg_offs, mask_flags := K.MTD_WRITEABLE },
        { name := some "hard_config", offset := info.hard_cfg_offs,
          size := info.hard_cfg_size, mask_flags := K.MTD_WRITEABLE },
        { name := some "bios", offset := u32_add info.hard_cfg_offs info.hard_cfg_size,
          size := RB_BIOS_SIZE, mask_flags := K.MTD_WRITEABLE },
        { name := some "routerboot2",
          offset := mtd_add K (u32_add info.hard_cfg_offs info.hard_cfg_size) RB_BIOS_SIZE,
          size := mtd_sub K info.soft_cfg_offs
            (mtd_add K (u32_add info.hard_cfg_offs info.hard_cfg_size) RB_BIOS_SIZE),
          mask_flags := K.MTD_WRITEABLE },
        { name := some "soft_config", offset := info.soft_cfg_offs,
          size := RB_SOFT_CFG_SIZE, mask_flags := e.mask_flags },
        { name := some "firmware", offset := mtd_add K info.soft_cfg_offs RB_SOFT_CFG_SIZE,
          size := K.MTDPART_SIZ_FULL, mask_flags := f.mask_flags } ] := by
  simp [rbspi_init_partitions, memset_parts, set_name, set_offset,
    set_size, set_mask_flags, part, RBSPI_PART_RBOOT, RBSPI_PART_HCONF,
    RBSPI_PART_BIOS, RBSPI_PART_RBOOT2, RBSPI_PART_SCONF, RBSPI_PART_FIRMW,
    mtd_partition.zero]

theorem six_entries (parts : List mtd_partition) (h : parts.length = RBSPI_PARTS) :
    ∃ a b c d e f, parts = [a, b, c, d, e, f] := by
  match parts, h with
  | [a, b, c, d, e, f], _ => exact ⟨a, b, c, d, e, f, rfl⟩

/-- C11, as stated, fails in its last clause: run on the table a first call
built from the worked example, which is not the zeroed table, the routine
again leaves soft_config and firmware with `mask_flags = 0`, writable. -/
theorem c11_counterexample :
    rbspi_init_partitions linux_headers demoInfo rbspi_spi_partitions_init
      ≠ rbspi_spi_partitions_init ∧
    (part (rbspi_init_partitions linux_headers demoInfo
      (rbspi_init_partitions linux_headers demoInfo rbspi_spi_partitions_init))
      RBSPI_PART_SCONF).mask_flags = 0 ∧
    (part (rbspi_init_partitions linux_headers demoInfo
      (rbspi_init_partitions linux_headers demoInfo rbspi_spi_partitions_init))
      RBSPI_PART_FIRMW).mask_flags = 0 ∧
    keeps_writeable linux_headers
      (part (rbspi_init_partitions linux_headers demoInfo
        (rbspi_init_partitions linux_headers demoInfo rbspi_spi_partitions_init))
        RBSPI_PART_SCONF) ∧
    keeps_writeable linux_headers
      (part (rbspi_init_partitions linux_headers demoInfo
        (rbspi_init_partitions linux_headers demoInfo rbspi_spi_partitions_init))
        RBSPI_PART_FIRMW) := by
  simp [init_partitions_eq, init_partitions_from, rbspi_spi_partitions_init, RBSPI_PARTS,
    List.replicate, mtd_partition.zero, keeps_writeable, part, RBSPI_PART_SCONF,
    RBSPI_PART_FIRMW]

/-- C11, amended: the `memset` of `rbspi_init_partitions` zeroes the first
entry of the six-entry table and no other, and `mask_flags` is assigned for
routerboot, hard_config, bios and routerboot2 only: for every prior content
of the table and every descriptor, the `mask_flags` of soft_config and of
firmware after the call are what they were before, every other member is
what the call on the zeroed table gives, and so each of the two entries is
writable (`mask_flags = 0`, no `MTD_WRITEABLE` bit masked) exactly when its
own `mask_flags` was so before the call, as it is in the zeroed table. -/
theorem c11_amended (K : Headers) (info : rb_info) (parts : List mtd_partition)
    (hlen : parts.length = RBSPI_PARTS) :
    (part (memset_parts parts) 0 = mtd_partition.zero ∧
      ∀ i, 0 < i → part (memset_parts parts) i = part parts i) ∧
    (part (rbspi_init_partitions K info parts) RBSPI_PART_SCONF).mask_flags
      = (part parts RBSPI_PART_SCONF).mask_flags ∧
    (part (rbspi_init_partitions K info parts) RBSPI_PART_FIRMW).mask_flags
      = (part parts RBSPI_PART_FIRMW).mask_flags ∧
    (∀ i ∈ [RBSPI_PART_RBOOT, RBSPI_PART_HCONF, RBSPI_PART_BIOS, RBSPI_PART_RBOOT2],
      (part (rbspi_init_partitions K info parts) i).mask_flags = K.MTD_WRITEABLE) ∧
    (rbspi_init_partitions K info parts).map layout
      = (rbspi_init_partitions K info rbspi_spi_partitions_init).map layout ∧
    ((part (rbspi_init_partitions K info parts) RBSPI_PART_SCONF).mask_flags = 0 ↔
      (part parts RBSPI_PART_SCONF).mask_flags = 0) ∧
    ((part (rbspi_init_partitions K info parts) RBSPI_PART_FIRMW).mask_flags = 0 ↔
      (part parts RBSPI_PART_FIRMW).mask_flags = 0) ∧
    (keeps_writeable K (part (rbspi_init_partitions K info parts) RBSPI_PART_SCONF) ↔
      keeps_writeable K (part parts RBSPI_PART_SCONF)) ∧
    (keeps_writeable K (part (rbspi_init_partitions K info parts) RBSPI_PART_FIRMW) ↔
      keeps_writeable K (part parts RBSPI_PART_FIRMW)) ∧
    (parts = rbspi_spi_partitions_init →
      (part (rbspi_init_partitions K info parts) RBSPI_PART_SCONF).mask_flags = 0 ∧
      (part (rbspi_init_partitions K info parts) RBSPI_PART_FIRMW).mask_flags = 0) := by
  obtain ⟨a, b, c, d, e, f, rfl⟩ := six_entries parts hlen
  have hs : (part (rbspi_init_partitions K info [a, b, c, d, e, f])
      RBSPI_PART_SCONF).mask_flags = e.mask_flags := by
    rw [init_partitions_from]; rfl
  have hf : (part (rbspi_init_partitions K info [a, b, c, d, e, f])
      RBSPI_PART_FIRMW).mask_flags = f.mask_flags := by
    rw [init_partitions_from]; rfl
  have hs0 : part [a, b, c, d, e, f] RBSPI_PART_SCONF = e := rfl
  have hf0 : part [a, b, c, d, e, f] RBSPI_PART_FIRMW = f := rfl
  refine ⟨⟨rfl, ?_⟩, by rw [hs, hs0], by rw [hf, hf0], ?_, ?_, by rw [hs, hs0],
    by rw [hf, hf0], ?_, ?_, ?_⟩
  · intro i hi
    obtain ⟨j, rfl⟩ : ∃ j, i = j + 1 := ⟨i - 1, by omega⟩
    simp [memset_parts, part]
  · rw [init_partitions_from]
    simp [part, RBSPI_PART_RBOOT, RBSPI_PART_HCONF, RBSPI_PART_BIOS, RBSPI_PART_RBOOT2]
  · rw [init_partitions_from, init_partitions_eq]
    simp [layout]
  · unfold keeps_writeable; rw [hs, hs0]
  · unfold keeps_writeable; rw [hf, hf0]
  · intro h0
    rw [hs, hf]
    simp only [rbspi_spi_partitions_init, RBSPI_PARTS, List.replicate, List.cons.injEq,
      and_true] at h0
    obtain ⟨_, _, _, _, he, hf'⟩ := h0
    rw [he, hf']
    exact ⟨rfl, rfl⟩

/-- Witness of the amended C11: on a table whose entries all mask
`MTD_WRITEABLE` (`0x400`), soft_config and firmware keep that `mask_flags`
and are not writable after the call. -/
theorem c11_amended_witness :
    staleParts.length = RBSPI_PARTS ∧
    (part (rbspi_init_partitions linux_headers demoInfo staleParts)
      RBSPI_PART_SCONF).mask_flags = 0x400 ∧
    (part (rbspi_init_partitions linux_headers demoInfo staleParts)
      RBSPI_PART_FIRMW).mask_flags = 0x400 :=
  ⟨rfl, (c11_amended linux_headers demoInfo staleParts rfl).2.1,
   (c11_amended linux_headers demoInfo staleParts rfl).2.2.1⟩

/-! ## LED pins -/

/-- The GPIO numbers of the seven LED tables, evaluated. -/
theorem led_gpios_tables (K : Headers) :
    (led_tables K).map led_gpios
      = [[17, 14, 4, 11], [14], [4, 46, 40, 41, 42, 43, 44], [14, 11], [14, 12, 11, 4],
         [4, 40, 44, 42, 43, 44, 46], [13, 12, 4, 21, 18, 14, 20, 11]] := by
  simp [led_tables, led_gpios, rbmapl_leds, rbhapl_leds, rb952_leds, rbwap_leds, rbcap_leds,
    rbmap_leds, rblhg_leds, RBMAPL_GPIO_LED_POWER, RBMAPL_GPIO_LED_USER,
    RBMAPL_GPIO_LED_ETH, RBMAPL_GPIO_LED_WLAN, RBHAPL_GPIO_LED_USER, RB952_GPIO_LED_USER,
    RB952_GPIO_LED_WLAN, RB952_GPIO_LED_LAN1, RB952_GPIO_LED_LAN2, RB952_GPIO_LED_LAN3,
    RB952_GPIO_LED_LAN4, RB952_GPIO_LED_LAN5, RBSPI_SSR_GPIO, RBSPI_SSR_GPIO_BASE,
    RB952_SSR_BIT_LED_WLAN, RB952_SSR_BIT_LED_LAN1, RB952_SSR_BIT_LED_LAN2,
    RB952_SSR_BIT_LED_LAN3, RB952_SSR_BIT_LED_LAN4, RB952_SSR_BIT_LED_LAN5,
    RBWAP_GPIO_LED_USER, RBWAP_GPIO_LED_WLAN, RBCAP_GPIO_LED_1, RBCAP_GPIO_LED_2,
    RBCAP_GPIO_LED_3, RBCAP_GPIO_LED_4, RBMAP_GPIO_LED_POWER, RBMAP_GPIO_LED_LAN1,
    RBMAP_GPIO_LED_WLAN, RBMAP_GPIO_LED_POEO, RBMAP_GPIO_LED_USER, RBMAP_GPIO_LED_APCAP,
    RBMAP_SSR_BIT_LED_LAN1, RBMAP_SSR_BIT_LED_WLAN, RBMAP_SSR_BIT_LED_POEO,
    RBMAP_SSR_BIT_LED_USER, RBMAP_SSR_BIT_LED_APCAP, RBLHG_GPIO_LED_0, RBLHG_GPIO_LED_1,
    RBLHG_GPIO_LED_2, RBLHG_GPIO_LED_3, RBLHG_GPIO_LED_4, RBLHG_GPIO_LED_ETH,
    RBLHG_GPIO_LED_POWER, RBLHG_GPIO_LED_USER]

/-- Every GPIO number of the seven tables that lies in the shift-register
range is the base plus a bit number of at most `7`. -/
theorem ssr_gpios_in_range :
    ∀ gs ∈ [[17, 14, 4, 11], [14], [4, 46, 40, 41, 42, 43, 44], [14, 11], [14, 12, 11, 4],
        [4, 40, 44, 42, 43, 44, 46], [13, 12, 4, 21, 18, 14, 20, 11]],
      ∀ g ∈ gs, RBSPI_SSR_GPIO_BASE ≤ g →
        g - RBSPI_SSR_GPIO_BASE ≤ 7 ∧ g = RBSPI_SSR_GPIO (g - RBSPI_SSR_GPIO_BASE) := by
  decide

/-- C12: the GPIO numbers are pairwise distinct in the LED tables of the
mAP lite, hAP lite, hAP, wAP, cAP and LHG, and in all seven tables every
LED behind the shift register has GPIO number `RBSPI_SSR_GPIO_BASE + bit`
with `bit` at most `7`; but in `rbmap_leds` the entries "rb:green:eth2" and
"rb:green:wlan" both have GPIO `RBMAP_GPIO_LED_WLAN` (`44`), so the GPIO
numbers of that table are not pairwise distinct, and `RBMAP_GPIO_LED_LAN2`
(`41`) is used by no entry. -/
theorem rbmap_leds_shared_gpio (K : Headers) :
    (rbmap_leds K).map (fun l => (l.name, l.gpio))
      = [("rb:green:power", 4), ("rb:green:eth1", 40), ("rb:green:eth2", 44),
         ("rb:red:poe_out", 42), ("rb:green:user", 43), ("rb:green:wlan", 44),
         ("rb:green:ap_cap", 46)] ∧
    RBMAP_GPIO_LED_WLAN = 44 ∧ RBMAP_GPIO_LED_LAN2 = 41 ∧
    ¬ (led_gpios (rbmap_leds K)).Nodup ∧
    RBMAP_GPIO_LED_LAN2 ∉ led_gpios (rbmap_leds K) ∧
    (∀ t ∈ [rbmapl_leds K, rbhapl_leds, rb952_leds, rbwap_leds, rbcap_leds, rblhg_leds K],
      (led_gpios t).Nodup) ∧
    (∀ t ∈ led_tables K, ∀ l ∈ t, ssr_backed l →
      ∃ bit, bit ≤ 7 ∧ l.gpio = RBSPI_SSR_GPIO bit) := by
  have hg := led_gpios_tables K
  simp only [led_tables, List.map_cons, List.map_nil, List.cons.injEq, and_true] at hg
  obtain ⟨g1, g2, g3, g4, g5, g6, g7⟩ := hg
  have h41 : RBMAP_GPIO_LED_LAN2 = 41 := by decide
  refine ⟨?_, by decide, h41, ?_, ?_, ?_, ?_⟩
  · simp [rbmap_leds, RBMAP_GPIO_LED_POWER, RBMAP_GPIO_LED_LAN1, RBMAP_GPIO_LED_WLAN,
      RBMAP_GPIO_LED_POEO, RBMAP_GPIO_LED_USER, RBMAP_GPIO_LED_APCAP, RBSPI_SSR_GPIO,
      RBSPI_SSR_GPIO_BASE, RBMAP_SSR_BIT_LED_LAN1, RBMAP_SSR_BIT_LED_WLAN,
      RBMAP_SSR_BIT_LED_POEO, RBMAP_SSR_BIT_LED_USER, RBMAP_SSR_BIT_LED_APCAP]
  · rw [g6]; simp
  · rw [g6, h41]; simp
  · intro t ht
    simp only [List.mem_cons, List.mem_singleton, List.not_mem_nil, or_false] at ht
    rcases ht with rfl | rfl | rfl | rfl | rfl | rfl
    · rw [g1]; simp
    · rw [g2]; simp
    · rw [g3]; simp
    · rw [g4]; simp
    · rw [g5]; simp
    · rw [g7]; simp
  · intro t ht l hl hs
    have hm : led_gpios t ∈ (led_tables K).map led_gpios := List.mem_map_of_mem _ ht
    rw [led_gpios_tables K] at hm
    have hgm : l.gpio ∈ led_gpios t := List.mem_map_of_mem (fun l => l.gpio) hl
    have := ssr_gpios_in_range _ hm _ hgm hs
    exact ⟨_, this.1, this.2⟩

end Rbspi
